import Mathlib

/-!
Shallow embedding of the grift-tracker ingestion pipeline.

The definitions below translate the Python sources of the repository
(src/ingestion/parsing_utils.py, src/ingestion/house/ingest.py,
src/ingestion/senate/ingest.py, src/ingestion/normalization.py, src/app.py)
into executable Lean functions.  Strings are modelled as lists of
characters; the regular expressions of the sources are implemented as
dedicated matching functions that follow the backtracking semantics of the
Python re module on the relevant patterns (leftmost match, lazy and greedy
quantifier preference, ordered alternation).  Machine-level caveats such as
Unicode-only whitespace or Unicode case folding are noted at the affected
definitions; all claim inputs are ASCII.
-/

set_option autoImplicit false

namespace GriftTracker

/-- Characters matched by the `\s` class of the Python re module, ASCII
part: space, tab, newline, carriage return, vertical tab, form feed.
Unicode-only whitespace code points are not modelled; every input reached
by the claims is ASCII. -/
def isWSChar (c : Char) : Bool :=
  c = ' ' || c = '\t' || c = '\n' || c = '\r' || c = Char.ofNat 11 || c = Char.ofNat 12

def isDigitChar (c : Char) : Bool :=
  '0' ≤ c && c ≤ '9'

def isUpperChar (c : Char) : Bool :=
  'A' ≤ c && c ≤ 'Z'

def isLowerChar (c : Char) : Bool :=
  'a' ≤ c && c ≤ 'z'

/-- ASCII lowercasing, modelling Python str.lower.  The Unicode-only case
mappings cannot produce any ASCII keyword of the sources, so they are not
modelled. -/
def lowerChar (c : Char) : Char :=
  if isUpperChar c then Char.ofNat (c.toNat + 32) else c

/-- ASCII uppercasing, modelling Python str.upper on the ASCII inputs. -/
def upperChar (c : Char) : Char :=
  if isLowerChar c then Char.ofNat (c.toNat - 32) else c

def lowerStr (l : List Char) : List Char := l.map lowerChar

def upperStr (l : List Char) : List Char := l.map upperChar

/-- Word characters of the `\w` class (ASCII part), used for the `\b`
boundaries. -/
def isWordChar (c : Char) : Bool :=
  isUpperChar c || isLowerChar c || isDigitChar c || c = '_'

/-- Python str.strip: remove leading and trailing whitespace. -/
def stripChars (l : List Char) : List Char :=
  ((l.dropWhile isWSChar).reverse.dropWhile isWSChar).reverse

/-- Case-insensitive (ASCII) prefix test, for the IGNORECASE regexes. -/
def isPrefixCI : List Char → List Char → Bool
  | [], _ => true
  | _ :: _, [] => false
  | a :: w, b :: l => lowerChar a = lowerChar b && isPrefixCI w l

/-- Plain substring test, modelling the Python `in` operator on str. -/
def isSubstr (w : List Char) : List Char → Bool
  | [] => w.isEmpty
  | c :: rest => w.isPrefixOf (c :: rest) || isSubstr w rest

/-- Word-boundary occurrence test for a token made of word characters
only, modelling `re.search(rf"\b{token}\b", text)`: the token occurs with
no word character immediately before or after it. -/
def hasWordAt (w l : List Char) (prev : Option Char) : Bool :=
  w.isPrefixOf l
    && (match prev with
        | none => true
        | some c => !isWordChar c)
    && (match (l.drop w.length).head? with
        | none => true
        | some c => !isWordChar c)

def wordSearchAux (w : List Char) (prev : Option Char) : List Char → Bool
  | [] => hasWordAt w [] prev
  | c :: rest => hasWordAt w (c :: rest) prev || wordSearchAux w (some c) rest

def wordSearch (w l : List Char) : Bool := wordSearchAux w none l

def joinSpace : List (List Char) → List Char
  | [] => []
  | [v] => v
  | v :: rest => v ++ ' ' :: joinSpace rest

def natOfDigits (l : List Char) : Nat :=
  l.foldl (fun a c => 10 * a + (c.toNat - 48)) 0

def natToStr (n : Nat) : String := String.mk (Nat.toDigits 10 n)

-- ==================== parsing_utils.py : normalize_text ====================

/-- Character replacements of `_TEXT_REPLACEMENTS`: non-breaking space to
space, en dash and em dash to a hyphen.  Each replacement source is a
single character, so the str.replace calls act character-wise. -/
def replaceSpecial (c : Char) : Char :=
  if c = Char.ofNat 160 then ' '
  else if c = Char.ofNat 8211 then '-'
  else if c = Char.ofNat 8212 then '-'
  else c

/-- Replacement of every maximal whitespace run by a single space,
modelling `_WHITESPACE_RE.sub(" ", text)`. -/
def collapseWSAux (prevWS : Bool) : List Char → List Char
  | [] => []
  | c :: rest =>
    if isWSChar c then
      if prevWS then collapseWSAux true rest
      else ' ' :: collapseWSAux true rest
    else c :: collapseWSAux false rest

def normalizeTextL (l : List Char) : List Char :=
  stripChars (collapseWSAux false (l.map replaceSpecial))

/-- Embedding of `normalize_text` (parsing_utils.py lines 47-56). -/
def normalize_text : Option String → String
  | none => ""
  | some s => String.mk (normalizeTextL s.data)

-- ==================== parsing_utils.py : amount parsing ====================

/-- Embedding of `_coerce_int`: `int(float(value.replace(",", "")))`.
The function is only applied to captures of the amount regexes, which
after comma removal have the shape digits* optionally followed by a dot
and further digits; float accepts exactly the non-empty strings of that
shape (an empty string raises ValueError, caught as None) and int
truncates toward zero, keeping the integer part. -/
def coerce_int (l : List Char) : Option Nat :=
  let t := l.filter (fun c => c ≠ ',')
  if t.isEmpty then none
  else if t.all isDigitChar then some (natOfDigits t)
  else
    match t.span isDigitChar with
    | (ipart, '.' :: fpart) =>
      if fpart.isEmpty then none
      else if fpart.all isDigitChar then some (natOfDigits ipart)
      else none
    | _ => none

def isNumComma (c : Char) : Bool := isDigitChar c || c = ','

/-- Candidates for one occurrence of `[\d,]+(?:\.\d+)?`, as (capture,
rest) pairs in the preference order of the backtracking engine: the
maximal `[\d,]+` run first; a decimal part can only attach to the maximal
run (a shorter run is followed by a digit or comma, not a dot), preferred
with the longest `\d+`; then the runs of decreasing length without a
decimal part. -/
def numCands (l : List Char) : List (List Char × List Char) :=
  let r := l.takeWhile isNumComma
  let rest := l.drop r.length
  if r.isEmpty then []
  else
    let base := (List.range r.length).map
      (fun i =>
        let k := r.length - i
        (r.take k, l.drop k))
    match rest with
    | '.' :: tail =>
      let d := tail.takeWhile isDigitChar
      let decCands := (List.range d.length).map
        (fun i =>
          let j := d.length - i
          (r ++ '.' :: d.take j, tail.drop j))
      decCands ++ base
    | _ => base

/-- Consume the separator alternation `(?:[-–—]|to)` (IGNORECASE).  The
character class is tried before the literal; their first characters are
disjoint, so the choice is forced. -/
def sepConsume : List Char → Option (List Char)
  | [] => none
  | c :: rest =>
    if c = '-' || c = Char.ofNat 8211 || c = Char.ofNat 8212 then some rest
    else if isPrefixCI ['t', 'o'] (c :: rest) then some ((c :: rest).drop 2)
    else none

/-- Skip an optional dollar sign.  In `\$?\s*([\d,]+...)` taking the
dollar sign when present is forced: skipping it leaves `[\d,]+` facing the
dollar sign, which fails. -/
def dropOptDollar (l : List Char) : List Char :=
  match l with
  | '$' :: rest => rest
  | _ => l

def dropWS (l : List Char) : List Char := l.dropWhile isWSChar

/-- Match `\$?\s*([\d,]+(?:\.\d+)?)\s*(?:[-–—]|to)\s*\$?\s*([\d,]+(?:\.\d+)?)`
at the current position, returning the two captures.  The `\s*` pieces are
each followed by a non-whitespace requirement, so maximal munch agrees
with the greedy engine; the first capture backtracks through `numCands`
until the separator fits, the second has nothing after it so its first
candidate stands. -/
def rangeMatchAt (l : List Char) : Option (List Char × List Char) :=
  let l1 := dropWS (dropOptDollar l)
  (numCands l1).findSome? (fun g1r =>
    match sepConsume (dropWS g1r.2) with
    | none => none
    | some r3 =>
      match numCands (dropWS (dropOptDollar (dropWS r3))) with
      | [] => none
      | g2r :: _ => some (g1r.1, g2r.1))

def rangeSearch : List Char → Option (List Char × List Char)
  | [] => rangeMatchAt []
  | c :: rest =>
    match rangeMatchAt (c :: rest) with
    | some g => some g
    | none => rangeSearch rest

/-- Match `over\s+\$?([\d,]+(?:\.\d+)?)` (IGNORECASE) at the current
position. -/
def overMatchAt (l : List Char) : Option (List Char) :=
  if isPrefixCI ['o', 'v', 'e', 'r'] l then
    let r := l.drop 4
    match r with
    | c :: _ =>
      if isWSChar c then
        match numCands (dropOptDollar (dropWS r)) with
        | [] => none
        | g :: _ => some g.1
      else none
    | [] => none
  else none

def overSearch : List Char → Option (List Char)
  | [] => overMatchAt []
  | c :: rest =>
    match overMatchAt (c :: rest) with
    | some g => some g
    | none => overSearch rest

/-- Match `(?:less than|under)\s+\$?([\d,]+(?:\.\d+)?)` (IGNORECASE) at
the current position; the alternation tries "less than" first. -/
def underMatchAt (l : List Char) : Option (List Char) :=
  let afterKw : Option (List Char) :=
    if isPrefixCI ['l', 'e', 's', 's', ' ', 't', 'h', 'a', 'n'] l then some (l.drop 9)
    else if isPrefixCI ['u', 'n', 'd', 'e', 'r'] l then some (l.drop 5)
    else none
  match afterKw with
  | none => none
  | some r =>
    match r with
    | c :: _ =>
      if isWSChar c then
        match numCands (dropOptDollar (dropWS r)) with
        | [] => none
        | g :: _ => some g.1
      else none
    | [] => none

def underSearch : List Char → Option (List Char)
  | [] => underMatchAt []
  | c :: rest =>
    match underMatchAt (c :: rest) with
    | some g => some g
    | none => underSearch rest

/-- Anchored match of `^\$?\s*([\d,]+(?:\.\d+)?)\s*$` (used through
re.match with an end anchor, so the whole string must be consumed; the
final `$` also accepts one trailing newline, which the preceding `\s*`
already absorbs). -/
def singleMatch (l : List Char) : Option (List Char) :=
  (numCands (dropWS (dropOptDollar l))).findSome? (fun gr =>
    if (dropWS gr.2).isEmpty then some gr.1 else none)

/-- Embedding of `parse_amount_range` (parsing_utils.py lines 66-100):
explicit range (with a swap when reversed), then under/less-than, then
over, then a single figure. -/
def parse_amount_range (amount_text : Option String) : Option Nat × Option Nat :=
  match amount_text with
  | none => (none, none)
  | some s =>
    if s = "" then (none, none)
    else
      let text := normalizeTextL s.data
      if text.isEmpty then (none, none)
      else
        match rangeSearch text with
        | some g =>
          let low := coerce_int g.1
          let high := coerce_int g.2
          match low, high with
          | some lo, some hi =>
            if hi < lo then (some hi, some lo) else (some lo, some hi)
          | _, _ => (low, high)
        | none =>
          match underSearch text with
          | some g =>
            match coerce_int g with
            | none => (none, none)
            | some hi => (some 0, some hi)
          | none =>
            match overSearch text with
            | some g => (coerce_int g, none)
            | none =>
              match singleMatch text with
              | some g => (coerce_int g, coerce_int g)
              | none => (none, none)

-- ==================== dates ====================

/-- Model of datetime.date: a calendar date with the validity range of
the datetime module (years 1 to 9999). -/
structure PyDate where
  year : Nat
  month : Nat
  day : Nat
deriving DecidableEq, Repr

def isLeapYear (y : Nat) : Bool :=
  y % 4 = 0 && (y % 100 ≠ 0 || y % 400 = 0)

def daysInMonth (y m : Nat) : Nat :=
  if m = 2 then (if isLeapYear y then 29 else 28)
  else if m = 4 || m = 6 || m = 9 || m = 11 then 30
  else 31

def validDate (y m d : Nat) : Bool :=
  1 ≤ y && y ≤ 9999 && 1 ≤ m && m ≤ 12 && 1 ≤ d && d ≤ daysInMonth y m

/-- Construction of a datetime.date, returning none where the constructor
raises ValueError. -/
def mkValidDate (y m d : Nat) : Option PyDate :=
  if validDate y m d then some ⟨y, m, d⟩ else none

/-- Lexicographic strict order on dates, as datetime.date compares. -/
def PyDate.ltB (a b : PyDate) : Bool :=
  a.year < b.year
    || (a.year = b.year
        && (a.month < b.month || (a.month = b.month && a.day < b.day)))

def PyDate.leB (a b : PyDate) : Bool :=
  a.year < b.year
    || (a.year = b.year
        && (a.month < b.month || (a.month = b.month && a.day ≤ b.day)))

def padZeros (width : Nat) (n : Nat) : List Char :=
  let ds := Nat.toDigits 10 n
  List.replicate (width - ds.length) '0' ++ ds

/-- Embedding of date.isoformat: YYYY-MM-DD. -/
def PyDate.isoformat (d : PyDate) : String :=
  String.mk (padZeros 4 d.year ++ '-' :: padZeros 2 d.month ++ '-' :: padZeros 2 d.day)

-- ==================== parsing_utils.py : strptime and parse_date ====================

/-- Partial result of a strptime run: the directives seen so far. -/
structure StrpState where
  m : Option Nat
  d : Option Nat
  y : Option Nat
deriving DecidableEq, Repr

def digitVal (c : Char) : Nat := c.toNat - 48

/-- Test for the two-digit alternatives of the %m regex
`1[0-2]|0[1-9]|[1-9]`. -/
def monthTwoOK (a b : Char) : Bool :=
  (a = '1' && ('0' ≤ b && b ≤ '2')) || (a = '0' && ('1' ≤ b && b ≤ '9'))

/-- Test for the two-digit alternatives of the %d regex
`3[01]|[12]\d|0[1-9]|[1-9]`. -/
def dayTwoOK (a b : Char) : Bool :=
  (a = '3' && (b = '0' || b = '1'))
    || ((a = '1' || a = '2') && isDigitChar b)
    || (a = '0' && ('1' ≤ b && b ≤ '9'))

def monthNamePairs : List (List Char × Nat) :=
  [("january".data, 1), ("february".data, 2), ("march".data, 3),
   ("april".data, 4), ("may".data, 5), ("june".data, 6),
   ("july".data, 7), ("august".data, 8), ("september".data, 9),
   ("october".data, 10), ("november".data, 11), ("december".data, 12)]

def monthAbbrPairs : List (List Char × Nat) :=
  [("jan".data, 1), ("feb".data, 2), ("mar".data, 3), ("apr".data, 4),
   ("may".data, 5), ("jun".data, 6), ("jul".data, 7), ("aug".data, 8),
   ("sep".data, 9), ("oct".data, 10), ("nov".data, 11), ("dec".data, 12)]

/-- Consume a month name from the given table (case-insensitive).  No
name of either table is a prefix of another, so at most one entry
matches and no backtracking through the alternation is needed. -/
def matchMonthName (table : List (List Char × Nat)) (s : List Char) :
    Option (Nat × List Char) :=
  table.findSome? (fun p =>
    if isPrefixCI p.1 s then some (p.2, s.drop p.1.length) else none)

/-- Backtracking interpreter for the strptime formats used by the
sources.  Directives handled: %m, %d, %Y, %y, %B, %b.  A literal
whitespace character in the format matches one or more whitespace
characters (as the CPython TimeRE translation does); other literals match
one character, case-insensitively.  The whole input must be consumed
(strptime raises on unconverted data).  For the two-digit/one-digit
alternation of %m and %d the two-digit reading is preferred and the
one-digit reading tried when the remainder of the format fails, mirroring
the regex backtracking. -/
def strpRun : List Char → List Char → StrpState → Option StrpState
  | [], s, st => if s.isEmpty then some st else none
  | ['%'], _, _ => none
  | '%' :: dir :: fmt, s, st =>
    if dir = 'm' then
      match s with
      | a :: b :: rest =>
        match (if monthTwoOK a b then
                 strpRun fmt rest { st with m := some (10 * digitVal a + digitVal b) }
               else none) with
        | some r => some r
        | none =>
          if '1' ≤ a && a ≤ '9' then
            strpRun fmt (b :: rest) { st with m := some (digitVal a) }
          else none
      | [a] =>
        if '1' ≤ a && a ≤ '9' then strpRun fmt [] { st with m := some (digitVal a) }
        else none
      | [] => none
    else if dir = 'd' then
      match s with
      | a :: b :: rest =>
        match (if dayTwoOK a b then
                 strpRun fmt rest { st with d := some (10 * digitVal a + digitVal b) }
               else none) with
        | some r => some r
        | none =>
          if '1' ≤ a && a ≤ '9' then
            strpRun fmt (b :: rest) { st with d := some (digitVal a) }
          else none
      | [a] =>
        if '1' ≤ a && a ≤ '9' then strpRun fmt [] { st with d := some (digitVal a) }
        else none
      | [] => none
    else if dir = 'Y' then
      match s with
      | a :: b :: c :: d :: rest =>
        if isDigitChar a && isDigitChar b && isDigitChar c && isDigitChar d then
          strpRun fmt rest
            { st with y := some (natOfDigits [a, b, c, d]) }
        else none
      | _ => none
    else if dir = 'y' then
      match s with
      | a :: b :: rest =>
        if isDigitChar a && isDigitChar b then
          let v := 10 * digitVal a + digitVal b
          strpRun fmt rest
            { st with y := some (if v ≤ 68 then 2000 + v else 1900 + v) }
        else none
      | _ => none
    else if dir = 'B' then
      match matchMonthName monthNamePairs s with
      | some mr => strpRun fmt mr.2 { st with m := some mr.1 }
      | none => none
    else if dir = 'b' then
      match matchMonthName monthAbbrPairs s with
      | some mr => strpRun fmt mr.2 { st with m := some mr.1 }
      | none => none
    else none
  | c :: fmt, s, st =>
    if isWSChar c then
      match s with
      | x :: _ => if isWSChar x then strpRun fmt (dropWS s) st else none
      | [] => none
    else
      match s with
      | x :: rest => if lowerChar x = lowerChar c then strpRun fmt rest st else none
      | [] => none

/-- Embedding of one `dt.datetime.strptime(text, fmt).date()` attempt:
none where strptime or the date constructor raises ValueError.  The
strptime defaults (year 1900, month 1, day 1) fill directives a format
does not set; every format of the sources sets all three. -/
def strptimeDate (fmt : String) (s : List Char) : Option PyDate :=
  match strpRun fmt.data s ⟨none, none, none⟩ with
  | none => none
  | some st => mkValidDate (st.y.getD 1900) (st.m.getD 1) (st.d.getD 1)

def firstFormat (formats : List String) (text : List Char) : Option PyDate :=
  formats.findSome? (fun fmt => strptimeDate fmt text)

/-- The `_DEFAULT_DATE_FORMATS` tuple of parsing_utils.py. -/
def DEFAULT_DATE_FORMATS : List String :=
  ["%m/%d/%Y", "%m/%d/%y", "%m-%d-%Y", "%Y-%m-%d", "%Y/%m/%d",
   "%d/%m/%Y", "%d-%m-%Y"]

/-- The `_MONTH_NAME_FORMATS` tuple of parsing_utils.py. -/
def MONTH_NAME_FORMATS : List String := ["%B %d, %Y", "%b %d, %Y"]

/-- Match of `(\d{1,2})[/\-](\d{1,2})[/\-](\d{2,4})` at the current
position: each digit group is greedy, backtracking to a shorter reading
when the following separator fails; the final group has nothing after it,
so its longest reading stands. -/
def fallbackMatchAt (l : List Char) : Option (Nat × Nat × Nat) :=
  let isSep : Char → Bool := fun c => c = '/' || c = '-'
  let grp12 : List Char → List (List Char × List Char) := fun s =>
    match s with
    | a :: b :: rest =>
      if isDigitChar a && isDigitChar b then [([a, b], rest), ([a], b :: rest)]
      else if isDigitChar a then [([a], b :: rest)]
      else []
    | [a] => if isDigitChar a then [([a], [])] else []
    | [] => []
  let grp24 : List Char → Option (List Char) := fun s =>
    match s with
    | a :: b :: c :: d :: _ =>
      if isDigitChar a && isDigitChar b then
        if isDigitChar c then
          if isDigitChar d then some [a, b, c, d] else some [a, b, c]
        else some [a, b]
      else none
    | a :: b :: c :: _ =>
      if isDigitChar a && isDigitChar b then
        if isDigitChar c then some [a, b, c] else some [a, b]
      else none
    | [a, b] => if isDigitChar a && isDigitChar b then some [a, b] else none
    | _ => none
  (grp12 l).findSome? (fun g1 =>
    match g1.2 with
    | s1 :: r1 =>
      if isSep s1 then
        (grp12 r1).findSome? (fun g2 =>
          match g2.2 with
          | s2 :: r2 =>
            if isSep s2 then
              (grp24 r2).map (fun g3 =>
                (natOfDigits g1.1, natOfDigits g2.1, natOfDigits g3))
            else none
          | [] => none)
      else none
    | [] => none)

def fallbackSearch : List Char → Option (Nat × Nat × Nat)
  | [] => none
  | c :: rest =>
    match fallbackMatchAt (c :: rest) with
    | some g => some g
    | none => fallbackSearch rest

/-- Embedding of `parse_date` (parsing_utils.py lines 103-142): the given
formats in order, then the month-name formats, then the regex fallback
with the two-digit-year rule (year below 50 to the 2000s, otherwise the
1900s); an invalid fallback date is swallowed and the result is none. -/
def parse_date (value : Option String) (formats : List String) : Option PyDate :=
  match value with
  | none => none
  | some v =>
    if v = "" then none
    else
      let text := normalizeTextL v.data
      if text.isEmpty then none
      else
        match firstFormat formats text with
        | some d => some d
        | none =>
          match firstFormat MONTH_NAME_FORMATS text with
          | some d => some d
          | none =>
            match fallbackSearch text with
            | some g =>
              let yr := g.2.2
              let yr2 := if yr < 100 then (if yr < 50 then 2000 + yr else 1900 + yr) else yr
              mkValidDate yr2 g.1 g.2.1
            | none => none

/-- Convenience wrapper: parse_date with the default formats, as the
module-level callers of parsing_utils use it. -/
def parse_date_default (value : Option String) : Option PyDate :=
  parse_date value DEFAULT_DATE_FORMATS

-- ==================== house/ingest.py : configuration ====================

/-- The AssetType enumeration (house/ingest.py lines 52-60 and
senate/ingest.py lines 41-49, identical members). -/
inductive AssetType where
  | STOCK
  | ETF
  | OPTION
  | CRYPTO
  | MUTUAL_FUND
  | BOND
  | OTHER
deriving DecidableEq, Repr

namespace House

/-- Config.AMOUNT_BUCKETS (house/ingest.py lines 65-75), entries
(lo_bound, hi_bound, bucket_index). -/
def AMOUNT_BUCKETS : List (Nat × Nat × Nat) :=
  [(0, 1000, 0), (1000, 15000, 1), (15000, 50000, 2), (50000, 100000, 3),
   (100000, 250000, 4), (250000, 500000, 5), (500000, 1000000, 6),
   (1000000, 5000000, 7), (5000000, 1000000000000, 8)]

/-- Config.TRADE_ACTIONS (house/ingest.py lines 78-82).  The source is a
Python set whose iteration order is unspecified; the embedding lists the
literal in source order.  Every claim proved below depends only on
whether the loop over this set finds any match, which is order
independent. -/
def TRADE_ACTIONS : List String :=
  ["buy", "purchase", "acquire", "acquisition",
   "sell", "sale", "dispose", "disposition",
   "exchange", "exercise", "assignment", "expiration"]

/-- Config.EXCLUDE_TOKENS (house/ingest.py lines 85-96). -/
def EXCLUDE_TOKENS : List String :=
  ["salary", "wages", "honoraria", "freelance", "consult", "consulting",
   "pension", "retirement", "social security", "ira", "401k", "403b",
   "mortgage", "loan", "credit", "debt", "liability",
   "student loan", "car loan", "auto loan", "personal loan",
   "revolving", "line of credit", "heloc",
   "patreon", "youtube", "tiktok", "instagram", "facebook",
   "teaching", "speaking", "book", "royalty", "royalties",
   "spouse salary", "dependent", "child",
   "brand", "marketing", "sponsorship", "endorsement",
   "bursar", "tuition", "education"]

/-- Config.CRYPTO_SYMBOLS (house/ingest.py lines 99-103); a Python set,
used only through membership tests, so the order is immaterial. -/
def CRYPTO_SYMBOLS : List String :=
  ["BTC", "ETH", "USDT", "BNB", "XRP", "USDC", "SOL", "ADA", "AVAX",
   "DOGE", "DOT", "MATIC", "SHIB", "TRX", "DAI", "WBTC", "LTC", "BCH",
   "LINK", "UNI", "XLM", "ALGO", "ATOM", "FIL", "HBAR", "MANA", "SAND"]

/-- Config.ETF_PATTERNS (house/ingest.py line 106). -/
def ETF_PATTERNS : List String :=
  ["ETF", "FUND", "INDEX", "TRUST", "SPDR", "ISHARES", "VANGUARD"]

/-- Config.OPTION_KEYWORDS (house/ingest.py line 109). -/
def OPTION_KEYWORDS : List String :=
  ["call", "put", "option", "strike", "expiry", "expire"]

/-- Config.DATE_FORMATS (house/ingest.py lines 112-116). -/
def DATE_FORMATS : List String :=
  ["%m/%d/%Y", "%m/%d/%y", "%m-%d-%Y", "%Y-%m-%d",
   "%d/%m/%Y", "%d-%m-%Y", "%Y/%m/%d",
   "%B %d, %Y", "%b %d, %Y", "%d %B %Y", "%d %b %Y"]

/-- House module-level parse_date (house/ingest.py lines 185-187):
parsing_utils.parse_date with Config.DATE_FORMATS. -/
def house_parse_date (s : Option String) : Option PyDate :=
  parse_date s DATE_FORMATS

-- ==================== house/ingest.py : amount helpers ====================

/-- Embedding of is_amount_range (house/ingest.py lines 240-243): both
bounds present and hi at least lo. -/
def is_amount_range (s : String) : Bool :=
  match parse_amount_range (some s) with
  | (some lo, some hi) => lo ≤ hi
  | _ => false

/-- The bucket loop of parse_amount_bucket: first entry whose bounds
contain the pair, otherwise score 0. -/
def bucketLoop (loVal hiVal : Nat) : List (Nat × Nat × Nat) → Nat
  | [] => 0
  | b :: rest =>
    if b.1 ≤ loVal ∧ hiVal ≤ b.2.1 then b.2.2 else bucketLoop loVal hiVal rest

/-- Embedding of parse_amount_bucket (house/ingest.py lines 245-261),
returning (low, high, bucket_score).  The Python `lo or 0` maps none and
zero alike to zero. -/
def parse_amount_bucket (s : String) : Nat × Nat × Nat :=
  match parse_amount_range (some s) with
  | (none, none) => (0, 0, 0)
  | (lo, hi) =>
    let loVal := lo.getD 0
    let hiVal := hi.getD loVal
    (loVal, hiVal, bucketLoop loVal hiVal AMOUNT_BUCKETS)

-- ==================== house/ingest.py : parse_action ====================

/-- Python str.capitalize: first character uppercased, the rest
lowercased. -/
def capitalizeStr : List Char → List Char
  | [] => []
  | c :: rest => upperChar c :: lowerStr rest

/-- Embedding of parse_action (house/ingest.py lines 263-283). -/
def parse_action (s : String) : String :=
  if s = "" then ""
  else
    let t := lowerStr (normalizeTextL s.data)
    if t = ['p'] || t = ['b'] then "Buy"
    else if t = ['s'] || t = "s (partial)".data then "Sell"
    else if t = ['e'] then "Exchange"
    else
      match TRADE_ACTIONS.find? (fun a => wordSearch a.data t) with
      | some a => String.mk (capitalizeStr a.data)
      | none => ""

-- ==================== house/ingest.py : OPTION_RE ====================

/-- Captures of an OPTION_RE match. -/
structure OptionGroups where
  underlying : List Char
  otype : List Char
  strike : Option (List Char)
  expiry : Option (List Char)
deriving DecidableEq, Repr

def isStrikeChar (c : Char) : Bool := isDigitChar c || c = '.'

def isExpiryChar (c : Char) : Bool := isDigitChar c || c = '/' || c = '-'

/-- Consume `(?P<type>call|put)` case-insensitively, returning the
capture (original text) and the remainder; the alternatives have disjoint
first letters, so the order of the alternation is immaterial here. -/
def typeConsume (l : List Char) : Option (List Char × List Char) :=
  if isPrefixCI "call".data l then some (l.take 4, l.drop 4)
  else if isPrefixCI "put".data l then some (l.take 3, l.drop 3)
  else none

/-- Consume `s?\s+` after the type: the optional s is taken when it is
followed by whitespace (greedy), otherwise the whitespace must start
immediately; the run is consumed maximally, which agrees with the greedy
engine because the following pieces of the pattern start with
non-whitespace characters or may match empty. -/
def afterTypeTail (l : List Char) : Option (List Char) :=
  match l with
  | [] => none
  | c :: rest =>
    if lowerChar c = 's' then
      match rest with
      | c2 :: _ => if isWSChar c2 then some (dropWS rest) else none
      | [] => none
    else if isWSChar c then some (dropWS l)
    else none

/-- The all-optional tail
`(?:option)?\s*(?:\$(?P<strike>[\d.]+))?\s*(?:exp|expire)?\s*(?P<expiry>[\d/\-]+)?`
interpreted greedily: every piece either consumes maximally or is
skipped; nothing after it can fail, so no backtracking arises.  Note the
alternation `exp|expire` commits to "exp", so after a literal "expire"
the expiry group never matches the following text. -/
def optionTailGroups (l : List Char) : Option (List Char) × Option (List Char) :=
  let r4 := if isPrefixCI "option".data l then l.drop 6 else l
  let r5 := dropWS r4
  let strikeRes : Option (List Char) × List Char :=
    match r5 with
    | '$' :: r6 =>
      let run := r6.takeWhile isStrikeChar
      if run.isEmpty then (none, r5) else (some run, r6.drop run.length)
    | _ => (none, r5)
  let r7 := dropWS strikeRes.2
  let r8 := if isPrefixCI "exp".data r7 then r7.drop 3 else r7
  let r9 := dropWS r8
  let erun := r9.takeWhile isExpiryChar
  (strikeRes.1, if erun.isEmpty then none else some erun)

/-- Attempt the remainder of OPTION_RE after a candidate underlying:
`\s+(call|put)s?\s+` then the optional tail. -/
def optionTryRest (u rest : List Char) : Option OptionGroups :=
  match rest with
  | [] => none
  | c :: _ =>
    if isWSChar c then
      match typeConsume (dropWS rest) with
      | some tyr =>
        match afterTypeTail tyr.2 with
        | some r3 =>
          let tail := optionTailGroups r3
          some ⟨u, tyr.1, tail.1, tail.2⟩
        | none => none
      | none => none
    else none

/-- Lazy `(?P<underlying>.+?)` at a fixed start: underlying lengths are
tried shortest first; a newline stops the dot. -/
def optionGoUnder (pre : List Char) : List Char → Option OptionGroups
  | [] => none
  | c :: rest =>
    if c = '\n' then none
    else
      match optionTryRest (pre ++ [c]) rest with
      | some g => some g
      | none => optionGoUnder (pre ++ [c]) rest

/-- Embedding of `OPTION_RE.search` (house/ingest.py lines 234-238):
leftmost start position, then the backtracking order of the pattern. -/
def optionSearch : List Char → Option OptionGroups
  | [] => none
  | c :: rest =>
    match optionGoUnder [] (c :: rest) with
    | some g => some g
    | none => optionSearch rest

-- ==================== house/ingest.py : ASSET_RE ====================

def isTickerChar (c : Char) : Bool :=
  isUpperChar c || isDigitChar c || c = '.' || c = '-' || c = '/'

/-- End-of-pattern test for `$` without MULTILINE: end of string, or just
before one final newline. -/
def atEnd (l : List Char) : Bool :=
  match l with
  | [] => true
  | [c] => c = '\n'
  | _ => false

/-- Attempt the remainder of ASSET_RE after a candidate name: optional
whitespace, an opening parenthesis, a ticker of 1 to 10 characters drawn
from uppercase letters, digits, dot, hyphen and slash, a closing
parenthesis, optional whitespace, an optional bracketed two-or-three
uppercase-letter type, and the end anchor.
The ticker run must have between 1 and 10 characters and be followed by
the closing parenthesis (shorter greedy readings are followed by a ticker
character, not the parenthesis, so they all fail).  The optional bracket
group tries three uppercase letters before two. -/
def assetTryRest (nm rest : List Char) : Option (List Char × List Char) :=
  match dropWS rest with
  | '(' :: r2 =>
    let run := r2.takeWhile isTickerChar
    if run.isEmpty || run.length > 10 then none
    else
      match r2.drop run.length with
      | ')' :: r3 =>
        let r4 := dropWS r3
        if atEnd r4 then some (nm, run)
        else
          match r4 with
          | '[' :: a :: b :: c :: rest5 =>
            if isUpperChar a && isUpperChar b && isUpperChar c then
              match rest5 with
              | ']' :: r6 => if atEnd r6 then some (nm, run) else none
              | _ =>
                if c = ']' then none
                else none
            else if isUpperChar a && isUpperChar b && c = ']' then
              if atEnd rest5 then some (nm, run) else none
            else none
          | _ => none
      | _ => none
  | _ => none

def assetGo (pre : List Char) : List Char → Option (List Char × List Char)
  | [] => none
  | c :: rest =>
    if c = '\n' then none
    else
      match assetTryRest (pre ++ [c]) rest with
      | some g => some g
      | none => assetGo (pre ++ [c]) rest

/-- Embedding of `ASSET_RE.search` (house/ingest.py lines 231-233): the
pattern is anchored with a caret, so the search can only match at the
start; the name group is lazy (shortest first). -/
def assetSearch (l : List Char) : Option (List Char × List Char) :=
  assetGo [] l

-- ==================== house/ingest.py : classification and asset parsing ====================

/-- Embedding of classify_asset_type (house/ingest.py lines 285-318).
The lru_cache decorator memoizes a pure function and is dropped. -/
def classify_asset_type (asset_str ticker : String) : AssetType :=
  let asset_lower := lowerStr asset_str.data
  let ticker_upper := upperStr ticker.data
  if OPTION_KEYWORDS.any (fun kw => isSubstr kw.data asset_lower) then .OPTION
  else if (optionSearch asset_str.data).isSome then .OPTION
  else if CRYPTO_SYMBOLS.any (fun s => s.data = ticker_upper) then .CRYPTO
  else if ["crypto", "bitcoin", "ethereum", "digital asset"].any
      (fun kw => isSubstr kw.data asset_lower) then .CRYPTO
  else if ["mutual fund", "index fund"].any
      (fun kw => isSubstr kw.data asset_lower) then .MUTUAL_FUND
  else if ["bond", "treasury", "note", "bill"].any
      (fun kw => isSubstr kw.data asset_lower) then .BOND
  else if ETF_PATTERNS.any (fun p => isSubstr (lowerStr p.data) asset_lower) then .ETF
  else if ticker_upper.getLast? = some 'F' ∧ ticker_upper.length = 4 then .ETF
  else if ticker ≠ "" then .STOCK
  else .OTHER

/-- Embedding of parse_asset (house/ingest.py lines 320-343).  In the
option branch the name group is returned without strip (source line
335); in the standard branch name and ticker are stripped (line 341). -/
def parse_asset (field : String) : String × String × Option OptionGroups :=
  if field = "" then ("", "", none)
  else
    let f := normalizeTextL field.data
    match optionSearch f with
    | some og =>
      let underlying := stripChars og.underlying
      match assetSearch underlying with
      | some nt => (String.mk nt.1, String.mk nt.2, some og)
      | none => (String.mk underlying, "", some og)
    | none =>
      match assetSearch f with
      | some nt => (String.mk (stripChars nt.1), String.mk (stripChars nt.2), none)
      | none => (String.mk f, "", none)

/-- Embedding of has_excluded_token (house/ingest.py lines 345-357):
multi-word tokens by substring, single words by word-boundary search. -/
def has_excluded_token (row_values : List String) : Bool :=
  let text := lowerStr (joinSpace (row_values.map String.data))
  EXCLUDE_TOKENS.any (fun token =>
    if token.data.contains ' ' then isSubstr token.data text
    else wordSearch token.data text)

-- ==================== house/ingest.py : row uid ====================

end House

/-- Modelled from the spec: hashlib.sha256(key).hexdigest()[:16] (Python
standard library, not part of src/).  Modelled as a fixed deterministic
16-hex-character digest of the key string; every claim proved about
identifiers depends only on determinism and on the construction of the
key, never on the digest values themselves. -/
def sha256hex16 (key : String) : String :=
  let h := key.data.foldl (fun a c => (a * 131 + c.toNat) % (2 ^ 64)) 5381
  let hexDigit : Nat → Char := fun n =>
    if n < 10 then Char.ofNat (48 + n) else Char.ofNat (97 + n - 10)
  String.mk ((List.range 16).map (fun i => hexDigit ((h / 16 ^ (15 - i)) % 16)))

namespace House

/-- Embedding of row_uid (house/ingest.py lines 359-363): the pipe-joined
key of source, filing id, line number, ticker, ISO date, amount text and
action, hashed. -/
def row_uid (source filing_id : String) (line_no : Nat)
    (ticker date_iso amount_str action : String) : String :=
  sha256hex16 (source ++ "|" ++ filing_id ++ "|" ++ natToStr line_no ++ "|"
    ++ ticker ++ "|" ++ date_iso ++ "|" ++ amount_str ++ "|" ++ action)

end House

-- ==================== dict model ====================

/-- Raw table row: a mapping of column name to cell text, modelled as an
association list with unique keys in insertion order (a Python dict). -/
abbrev RawRow := List (String × String)

/-- Python dict assignment: an existing key keeps its position and takes
the new value, a new key is appended. -/
def dictInsert (d : RawRow) (k v : String) : RawRow :=
  if (d.find? (fun p => p.1 = k)).isSome then
    d.map (fun p => if p.1 = k then (k, v) else p)
  else d ++ [(k, v)]

def buildDict (items : List (String × String)) : RawRow :=
  items.foldl (fun d p => dictInsert d p.1 p.2) []

def dictGet? (d : RawRow) (k : String) : Option String :=
  (d.find? (fun p => p.1 = k)).map (fun p => p.2)

/-- Python truthiness chain `a or b or ... or ""` over optional lookup
results: the first present, non-empty value, otherwise the empty
string. -/
def firstTruthy : List (Option String) → String
  | [] => ""
  | some v :: rest => if v ≠ "" then v else firstTruthy rest
  | none :: rest => firstTruthy rest

/-- Python `x or y` on strings. -/
def pyOr (x y : String) : String := if x ≠ "" then x else y

namespace House

-- ==================== house/ingest.py : Trade and _parse_trade_row ====================

/-- The Trade dataclass (house/ingest.py lines 154-172). -/
structure Trade where
  event_uid : String
  filing_id : String
  actor : String
  date : PyDate
  action : String
  owner : String
  ticker : String
  company : String
  asset_type : AssetType
  amount_range : String
  amount_lo : Nat
  amount_hi : Nat
  amount_bucket : Nat
  cap_gains_over_200 : Bool
  description : String
  raw_data : RawRow
deriving DecidableEq, Repr

/-- Description text built for option trades (house/ingest.py lines
673-679). -/
def optionDescription (og : OptionGroups) : String :=
  String.mk (upperStr og.otype) ++ " Option"
    ++ (match og.strike with
        | some s => " Strike: $" ++ String.mk s
        | none => "")
    ++ (match og.expiry with
        | some e => " Exp: " ++ String.mk e
        | none => "")

/-- Embedding of PDFProcessor._parse_trade_row (house/ingest.py lines
601-698). -/
def parse_trade_row (row : RawRow) (filing_id actor : String) (line_no : Nat) :
    Option Trade :=
  let normalized :=
    buildDict (row.map (fun p => (String.mk (stripChars (lowerStr p.1.data)), p.2)))
  if has_excluded_token (normalized.map (fun p => p.2)) then none
  else
    let date_str := firstTruthy
      [dictGet? normalized "date", dictGet? normalized "transaction date",
       dictGet? normalized "tx date", dictGet? normalized "trade date",
       dictGet? normalized "transaction dt"]
    match house_parse_date (some date_str) with
    | none => none
    | some trade_date =>
      let action_raw := firstTruthy
        [dictGet? normalized "transaction type", dictGet? normalized "type"]
      let action := parse_action action_raw
      if action = "" then none
      else
        let amount := firstTruthy
          [dictGet? normalized "amount", dictGet? normalized "amount range",
           dictGet? normalized "value", dictGet? normalized "value of asset"]
        if !is_amount_range amount then none
        else
          let lhb := parse_amount_bucket amount
          let asset_field := firstTruthy
            [dictGet? normalized "asset", dictGet? normalized "security",
             dictGet? normalized "company", dictGet? normalized "description"]
          let cto := parse_asset asset_field
          let company := cto.1
          let ticker := cto.2.1
          if ticker = "" && company = "" then none
          else
            let owner := firstTruthy [dictGet? normalized "owner"]
            let cap_gains := firstTruthy [dictGet? normalized "capital gains over $200"]
            let cap_flag :=
              lowerStr cap_gains.data = "yes".data || lowerStr cap_gains.data = ['y']
                || lowerStr cap_gains.data = "true".data || lowerStr cap_gains.data = ['1']
            some
              { event_uid := row_uid "house_ptr" filing_id line_no (pyOr ticker company)
                  trade_date.isoformat amount action
                filing_id := filing_id
                actor := actor
                date := trade_date
                action := action
                owner := owner
                ticker := ticker
                company := company
                asset_type := classify_asset_type asset_field ticker
                amount_range := amount
                amount_lo := lhb.1
                amount_hi := lhb.2.1
                amount_bucket := lhb.2.2
                cap_gains_over_200 := cap_flag
                description :=
                  match cto.2.2 with
                  | some og => optionDescription og
                  | none => ""
                raw_data := row }

-- ==================== house/ingest.py : Filing, validation, batch ====================

/-- The Filing dataclass (house/ingest.py lines 125-152). -/
structure Filing where
  first : String
  last : String
  filing_type : String
  state_dst : String
  year : Nat
  filing_date : PyDate
  doc_id : String
deriving DecidableEq, Repr

def Filing.full_name (f : Filing) : String :=
  String.mk (stripChars (f.first ++ " " ++ f.last).data)

def Filing.pdf_url (f : Filing) : String :=
  let folder :=
    if upperStr f.filing_type.data = ['W'] || upperStr f.filing_type.data = ['C']
        || upperStr f.filing_type.data = ['D'] then "ptr-pdfs" else "financial-pdfs"
  "https://disclosures-clerk.house.gov/public_disc/" ++ folder ++ "/"
    ++ natToStr f.year ++ "/" ++ f.doc_id ++ ".pdf"

def Filing.alternate_pdf_url (f : Filing) : String :=
  let folder :=
    if upperStr f.filing_type.data = ['W'] || upperStr f.filing_type.data = ['C']
        || upperStr f.filing_type.data = ['D'] then "financial-pdfs" else "ptr-pdfs"
  "https://disclosures-clerk.house.gov/public_disc/" ++ folder ++ "/"
    ++ natToStr f.year ++ "/" ++ f.doc_id ++ ".pdf"

/-- Embedding of validate_trade (house/ingest.py lines 743-764).  The
call dt.date.today() reads the system clock, passed here as the
parameter today. -/
def validate_trade (today : PyDate) (t : Trade) : Bool :=
  if PyDate.ltB today t.date then false
  else if PyDate.ltB t.date ⟨1990, 1, 1⟩ then false
  else if t.amount_hi < t.amount_lo then false
  else if t.ticker = "" && t.company = "" then false
  else true

/-- Embedding of process_single_filing (house/ingest.py lines 804-832).
The download and the PDF parsing go through external capabilities
(requests and the table extractors); they enter as the function
parameters download (none standing for a falsy result, that is a failed
or empty download) and parseTrades, so the control flow of the source is
kept: primary URL, then the alternate URL, then an empty result. -/
def process_single_filing {β : Type} (download : String → String → Option β)
    (parseTrades : β → String → String → List Trade)
    (today : PyDate) (since_date : Option PyDate) (filing : Filing) : List Trade :=
  let afterDownload : β → List Trade := fun pdf =>
    let trades := parseTrades pdf filing.doc_id filing.full_name
    let trades :=
      match since_date with
      | some d => trades.filter (fun t => PyDate.leB d (Trade.date t))
      | none => trades
    trades.filter (validate_trade today)
  match download filing.pdf_url filing.doc_id with
  | some pdf => afterDownload pdf
  | none =>
    match download filing.alternate_pdf_url filing.doc_id with
    | some pdf => afterDownload pdf
    | none => []

/-- Embedding of process_filing_batch (house/ingest.py lines 768-802).
The source submits process_single_filing per filing to a thread pool and
extends the aggregate with each completed result, catching a per-future
exception and skipping that filing.  Modelled as a fold in submission
order over per-filing outcomes (an exception as Except.error); the
completion order of the pool only permutes the aggregate, and the claims
below concern its membership, which is order independent (spec section
5). -/
def process_filing_batch (runSingle : Filing → Except String (List Trade))
    (download_and_parse : Bool) (filings : List Filing) : List Trade :=
  if !download_and_parse then []
  else
    filings.foldl
      (fun acc f =>
        match runSingle f with
        | .ok ts => acc ++ ts
        | .error _ => acc)
      []

end House

-- ==================== normalization.py ====================

namespace Normalization

/-- The `_BUY_KEYWORDS` set (normalization.py lines 27-33); a Python set
iterated only to test membership of a substring, and every hit produces
the same result, so the unspecified iteration order is immaterial. -/
def BUY_KEYWORDS : List String :=
  ["buy", "purchase", "acquire", "acquisition", "bought"]

/-- The `_SELL_KEYWORDS` set (normalization.py lines 34-40). -/
def SELL_KEYWORDS : List String :=
  ["sell", "sale", "dispose", "disposition", "sold"]

/-- Embedding of canonicalize_transaction_type (normalization.py lines
43-65): buy keywords first, then sell keywords, default other. -/
def canonicalize_transaction_type (raw_value : Option String) : String :=
  match raw_value with
  | none => "other"
  | some s =>
    if s = "" then "other"
    else
      let text := lowerStr (normalizeTextL s.data)
      if text.isEmpty then "other"
      else if BUY_KEYWORDS.any (fun k => isSubstr k.data text) then "buy"
      else if SELL_KEYWORDS.any (fun k => isSubstr k.data text) then "sell"
      else "other"

/-- Embedding of `_blank_to_none` (normalization.py lines 122-126). -/
def blank_to_none (value : Option String) : Option String :=
  match value with
  | none => none
  | some v =>
    let t := normalize_text (some v)
    if t = "" then none else some t

def isAlnumChar (c : Char) : Bool :=
  isUpperChar c || isLowerChar c || isDigitChar c

/-- Embedding of `_normalize_ticker` (normalization.py lines 129-136):
keep alphanumeric characters, dot and hyphen, then uppercase.  The
str.isalnum test is modelled on its ASCII part; ticker inputs are
ASCII. -/
def normalize_ticker (value : Option String) : Option String :=
  match blank_to_none value with
  | none => none
  | some t =>
    let cleaned :=
      upperStr (t.data.filter (fun c => isAlnumChar c || c = '.' || c = '-'))
    if cleaned.isEmpty then none else some (String.mk cleaned)

/-- The token of `_EVENT_NAMESPACE` (normalization.py line 23): the
namespace is uuid5(NAMESPACE_URL, this tag), itself a fixed value;
modelled by the tag string. -/
def EVENT_NAMESPACE_TAG : String := "https://grift-tracker/transaction-event"

end Normalization

/-- Modelled from the spec: uuid.uuid5 (Python standard library, not part
of src/), the RFC 4122 name-based UUID.  Modelled as a fixed
deterministic digest of namespace and name; every claim proved about the
canonical id depends only on determinism and on which inputs feed it. -/
def uuid5Model (ns name : String) : String :=
  sha256hex16 (ns ++ ";" ++ name)

namespace Normalization

/-- Embedding of `_deterministic_uuid` (normalization.py lines 139-141):
uuid5 of the event namespace and the stripped source:fingerprint
token. -/
def deterministic_uuid (source fingerprint : String) : String :=
  uuid5Model EVENT_NAMESPACE_TAG (String.mk (stripChars (source ++ ":" ++ fingerprint).data))

/-- The TransactionEvent dataclass (normalization.py lines 68-101), the
id modelled as the string produced by the uuid model. -/
structure TransactionEvent where
  id : String
  filing_id : Option String
  transaction_date : Option PyDate
  ticker : Option String
  company_name : Option String
  transaction_type : String
  amount_range : Option String
  amount_lo : Option Nat
  amount_hi : Option Nat
  owner : Option String
  politician_id : Option String
deriving DecidableEq, Repr

/-- Embedding of transaction_event_from_house_trade (normalization.py
lines 144-168).  The getattr calls read attributes the Trade dataclass
always carries, so the fallback defaults are unreachable. -/
def transaction_event_from_house_trade (trade : House.Trade)
    (politician_id : Option String) : TransactionEvent :=
  { id := deterministic_uuid "house" trade.event_uid
    filing_id := some trade.filing_id
    transaction_date := some trade.date
    ticker := normalize_ticker (some trade.ticker)
    company_name := blank_to_none (some trade.company)
    transaction_type := canonicalize_transaction_type (some trade.action)
    amount_range := blank_to_none (some trade.amount_range)
    amount_lo := some trade.amount_lo
    amount_hi := some trade.amount_hi
    owner := blank_to_none (some trade.owner)
    politician_id := politician_id }

end Normalization

-- ==================== senate/ingest.py ====================

namespace Senate

/-- Senate Config.TRADE_ACTIONS (senate/ingest.py lines 87-90); a Python
set, listed in source order; the claims below depend only on whether the
keyword loop finds any match. -/
def TRADE_ACTIONS : List String :=
  ["purchase", "buy", "bought", "acquired", "exercised",
   "sale", "sell", "sold", "disposed", "exchanged"]

/-- Senate Config.EXCLUDE_TOKENS (senate/ingest.py lines 93-99). -/
def EXCLUDE_TOKENS : List String :=
  ["salary", "honoraria", "consulting fee", "director fee",
   "pension", "social security", "retirement", "ira", "401k",
   "mortgage", "loan", "credit", "liability", "debt",
   "rent", "rental income", "royalty", "book advance",
   "speaking fee", "teaching", "spouse salary"]

/-- Senate Config.CRYPTO_SYMBOLS (senate/ingest.py lines 102-105). -/
def CRYPTO_SYMBOLS : List String :=
  ["BTC", "ETH", "USDT", "BNB", "XRP", "USDC", "SOL", "ADA",
   "DOGE", "DOT", "MATIC", "SHIB", "LTC", "BCH", "LINK", "UNI"]

/-- The SenateFiling dataclass (senate/ingest.py lines 115-131). -/
structure SenateFiling where
  senator_name : String
  state : String
  report_type : String
  filing_date : PyDate
  report_id : String
  pdf_url : String
deriving DecidableEq, Repr

/-- The SenateTrade dataclass (senate/ingest.py lines 133-151). -/
structure SenateTrade where
  event_uid : String
  report_id : String
  senator : String
  state : String
  date : PyDate
  action : String
  owner : String
  asset : String
  ticker : String
  asset_type : AssetType
  amount_range : String
  amount_lo : Nat
  amount_hi : Nat
  notification_date : Option PyDate
  comment : String
  raw_data : RawRow
deriving DecidableEq, Repr

/-- Date formats of SenatePDFProcessor._parse_date (senate/ingest.py
lines 808-811). -/
def SENATE_DATE_FORMATS : List String :=
  ["%m/%d/%Y", "%m/%d/%y", "%Y-%m-%d", "%B %d, %Y", "%b %d, %Y", "%m-%d-%Y"]

/-- Embedding of SenatePDFProcessor._parse_date (senate/ingest.py lines
803-819): the format list in order on the stripped input, none
otherwise (no regex fallback here). -/
def senate_parse_date (date_str : String) : Option PyDate :=
  if date_str = "" then none
  else firstFormat SENATE_DATE_FORMATS (stripChars date_str.data)

/-- Embedding of SenatePDFProcessor._parse_action (senate/ingest.py
lines 821-841). -/
def senate_parse_action (s : String) : String :=
  if s = "" then ""
  else
    let t := stripChars (lowerStr s.data)
    if t = ['p'] || t = "purchase".data then "Purchase"
    else if t = ['s'] || t = "sale".data || t = "sold".data then "Sale"
    else if t = ['e'] || t = "exchange".data then "Exchange"
    else
      match TRADE_ACTIONS.find? (fun k => isSubstr k.data t) with
      | some k => String.mk (House.capitalizeStr k.data)
      | none => ""

def isSenTickerChar (c : Char) : Bool :=
  isUpperChar c || isDigitChar c || c = '.' || c = '-'

/-- Search for a parenthesised ticker, the pattern of an opening
parenthesis, an uppercase letter, up to nine more characters among
uppercase letters, digits, dot and hyphen, and a closing parenthesis
(senate/ingest.py line 849).  The inner repetition is greedy; a shorter
reading leaves a ticker character before the required closing
parenthesis, so the match succeeds exactly when the maximal run fits. -/
def parenTickerSearch : List Char → Option (List Char)
  | [] => none
  | '(' :: rest =>
    (match rest with
     | a :: r2 =>
       if isUpperChar a then
         let run := r2.takeWhile isSenTickerChar
         if run.length ≤ 9 then
           match r2.drop run.length with
           | ')' :: _ => some (a :: run)
           | _ => parenTickerSearch rest
         else parenTickerSearch rest
       else parenTickerSearch rest
     | [] => none)
  | _ :: rest => parenTickerSearch rest

def isSenDash (c : Char) : Bool := c = '-' || c = Char.ofNat 8211

/-- Backtracking loop for the anchored leading-ticker pattern: an
uppercase letter, up to nine more ticker characters (greedy, backtracking
because the hyphen belongs to both the ticker class and the separator),
optional whitespace, a dash or en dash (senate/ingest.py line 854).  The
trailing optional whitespace of the pattern always matches. -/
def startTickerCheck (first : Char) (run afterRun : List Char) (k : Nat) :
    Option (List Char) :=
  match dropWS (run.drop k ++ afterRun) with
  | s :: _ => if isSenDash s then some (first :: run.take k) else none
  | [] => none

def startTickerLoop (first : Char) (run afterRun : List Char) :
    Nat → Option (List Char)
  | 0 => startTickerCheck first run afterRun 0
  | k2 + 1 =>
    match startTickerCheck first run afterRun (k2 + 1) with
    | some t => some t
    | none => startTickerLoop first run afterRun k2

def startTickerMatch (l : List Char) : Option (List Char) :=
  match l with
  | c :: rest =>
    if isUpperChar c then
      let run := rest.takeWhile isSenTickerChar
      startTickerLoop c run (rest.drop run.length) (min run.length 9)
    else none
  | [] => none

/-- Embedding of SenatePDFProcessor._extract_ticker (senate/ingest.py
lines 843-858). -/
def extract_ticker (asset_str : String) : String :=
  if asset_str = "" then ""
  else
    match parenTickerSearch asset_str.data with
    | some t => String.mk t
    | none =>
      match startTickerMatch asset_str.data with
      | some t => String.mk t
      | none => ""

/-- Embedding of SenatePDFProcessor._parse_amount_range (senate/ingest.py
lines 860-895).  Line 866 of the source is an unterminated string literal
(the second str.replace call has no second argument): taken literally the
whole module is a SyntaxError and cannot be imported, so no Senate code
runs at all.  The embedding takes the closest executable reading of the
method, the one keeping its tokens: a one-argument str.replace call,
which raises TypeError on every call that reaches line 866.  The guard of
line 862 returns (0, 0) for a falsy input before the broken line;
everything after line 866 (the range regex and the bucket fallbacks) is
unreachable under this reading and therefore does not appear here.  So
every call either returns (0, 0) for an empty input or raises, modelled
with Except; the per-row try/except of the caller (lines 678-684) turns
the raise into a dropped row. -/
def senate_parse_amount_range (amount_str : String) : Except String (Nat × Nat) :=
  if amount_str = "" then Except.ok (0, 0)
  else Except.error "TypeError: replace expected at least 2 arguments, got 1"

/-- Embedding of SenatePDFProcessor._classify_asset_type (senate/ingest.py
lines 897-925).  Note the order: bonds are tested before mutual funds,
and the ETF branch accepts any ticker ending in F, unlike the House
classifier. -/
def senate_classify_asset_type (asset ticker : String) : AssetType :=
  let asset_lower := lowerStr asset.data
  let ticker_upper := upperStr ticker.data
  if ["call", "put", "option"].any (fun kw => isSubstr kw.data asset_lower) then .OPTION
  else if CRYPTO_SYMBOLS.any (fun s => s.data = ticker_upper) then .CRYPTO
  else if ["bitcoin", "ethereum", "crypto"].any
      (fun kw => isSubstr kw.data asset_lower) then .CRYPTO
  else if ["bond", "treasury", "note"].any
      (fun kw => isSubstr kw.data asset_lower) then .BOND
  else if ["mutual fund", "index fund"].any
      (fun kw => isSubstr kw.data asset_lower) then .MUTUAL_FUND
  else if isSubstr "etf".data asset_lower || ticker_upper.getLast? = some 'F' then .ETF
  else if ticker ≠ "" then .STOCK
  else .OTHER

/-- Embedding of SenatePDFProcessor._generate_trade_uid (senate/ingest.py
lines 927-938). -/
def generate_trade_uid (report_id : String) (page row : Nat)
    (asset date action : String) : String :=
  sha256hex16 ("senate|" ++ report_id ++ "|" ++ natToStr page ++ "|" ++ natToStr row
    ++ "|" ++ asset ++ "|" ++ date ++ "|" ++ action)

/-- Loop of the date lookups in the Senate row parser: first key present
with a non-empty value whose parse succeeds; a failed parse falls through
to the next key. -/
def dateLookupLoop (d : RawRow) : List String → Option PyDate
  | [] => none
  | k :: ks =>
    match dictGet? d k with
    | some v =>
      if v ≠ "" then
        match senate_parse_date v with
        | some dt2 => some dt2
        | none => dateLookupLoop d ks
      else dateLookupLoop d ks
    | none => dateLookupLoop d ks

/-- Loop of the action lookup: keys tested for presence only; the first
non-empty parse wins. -/
def actionLookupLoop (d : RawRow) : List String → String
  | [] => ""
  | k :: ks =>
    match dictGet? d k with
    | some v =>
      let a := senate_parse_action v
      if a ≠ "" then a else actionLookupLoop d ks
    | none => actionLookupLoop d ks

/-- Loop of the asset lookup: the first key present with a non-empty
value is taken, and the loop breaks whether or not a ticker was
extracted. -/
def assetLookupLoop (d : RawRow) : List String → String × String
  | [] => ("", "")
  | k :: ks =>
    match dictGet? d k with
    | some v =>
      if v ≠ "" then (v, extract_ticker v) else assetLookupLoop d ks
    | none => assetLookupLoop d ks

/-- Loop of the dedicated ticker columns: first key present with a
non-empty value, uppercased. -/
def tickerLookupLoop (d : RawRow) : List String → Option String
  | [] => none
  | k :: ks =>
    match dictGet? d k with
    | some v =>
      if v ≠ "" then some (String.mk (upperStr v.data)) else tickerLookupLoop d ks
    | none => tickerLookupLoop d ks

/-- Loop of the amount lookup: first key present with a non-empty value;
the bounds come from the amount parser, whose exception (see
senate_parse_amount_range) propagates out of the loop and out of the row
parser. -/
def amountLookupLoop (d : RawRow) : List String → Except String (String × Nat × Nat)
  | [] => Except.ok ("", 0, 0)
  | k :: ks =>
    match dictGet? d k with
    | some v =>
      if v ≠ "" then
        match senate_parse_amount_range v with
        | Except.ok lh => Except.ok (v, lh.1, lh.2)
        | Except.error e => Except.error e
      else amountLookupLoop d ks
    | none => amountLookupLoop d ks

/-- Loop of the owner lookup: first key present, any value. -/
def ownerLookupLoop (d : RawRow) : List String → String
  | [] => ""
  | k :: ks =>
    match dictGet? d k with
    | some v => v
    | none => ownerLookupLoop d ks

/-- Embedding of SenatePDFProcessor._parse_trade_row (senate/ingest.py
lines 688-801).  The row dictionary pairs each header with the stripped
cell at the same index; every exclusion token is tested by plain
substring here (no word boundaries, unlike the House parser).  The
result is ok none where the source returns None, ok with a trade where it
returns one, and an error where the amount parser raises (see
senate_parse_amount_range): the raise escapes this method and is caught
by the caller. -/
def parse_trade_row (row : List String) (headers : List String)
    (filing : SenateFiling) (page_num row_idx : Nat) :
    Except String (Option SenateTrade) :=
  let row_dict :=
    buildDict ((headers.zip row).map
      (fun p => (p.1, String.mk (stripChars p.2.data))))
  let row_text := lowerStr (joinSpace (row_dict.map (fun p => p.2.data)))
  if EXCLUDE_TOKENS.any (fun t => isSubstr t.data row_text) then Except.ok none
  else
    match dateLookupLoop row_dict
        ["transaction date", "date", "trans date", "date of transaction"] with
    | none => Except.ok none
    | some date =>
      let action := actionLookupLoop row_dict
        ["type", "transaction type", "transaction", "action"]
      if action = "" then Except.ok none
      else
        let assetTicker := assetLookupLoop row_dict
          ["asset", "asset name", "description", "security"]
        let asset := assetTicker.1
        let ticker :=
          match tickerLookupLoop row_dict ["ticker", "symbol", "ticker symbol"] with
          | some t => t
          | none => assetTicker.2
        if asset = "" && ticker = "" then Except.ok none
        else
          match amountLookupLoop row_dict ["amount", "value", "amount range"] with
          | Except.error e => Except.error e
          | Except.ok amount =>
            let owner := ownerLookupLoop row_dict ["owner", "ownership", "whose"]
            let notification_date := dateLookupLoop row_dict
              ["notification date", "date notified", "reported"]
            Except.ok (some
              { event_uid := generate_trade_uid filing.report_id page_num row_idx
                  (pyOr ticker asset) date.isoformat action
                report_id := filing.report_id
                senator := filing.senator_name
                state := filing.state
                date := date
                action := action
                owner := owner
                asset := asset
                ticker := ticker
                asset_type := senate_classify_asset_type asset ticker
                amount_range := amount.1
                amount_lo := amount.2.1
                amount_hi := amount.2.2
                notification_date := notification_date
                comment := ""
                raw_data := row_dict })

/-- Header normalization of SenatePDFProcessor._parse_transaction_table
(senate/ingest.py line 674): a falsy cell becomes col followed by its
index, the rest are lower-cased and stripped. -/
def buildTableHeaders (hdr : List String) : List String :=
  hdr.enum.map (fun p =>
    String.mk (stripChars (lowerStr
      (if p.2 = "" then "col" ++ natToStr p.1 else p.2).data)))

/-- Row loop of _parse_transaction_table (senate/ingest.py lines
677-684): each row parse runs under a try/except, so a row whose parse
raises is logged and skipped, never aborting the table. -/
def tableRowsLoop (filing : SenateFiling) (page_num : Nat)
    (headers : List String) : Nat → List (List String) → List SenateTrade
  | _, [] => []
  | idx, row :: rest =>
    match parse_trade_row row headers filing page_num idx with
    | Except.ok (some t) => t :: tableRowsLoop filing page_num headers (idx + 1) rest
    | Except.ok none => tableRowsLoop filing page_num headers (idx + 1) rest
    | Except.error _ => tableRowsLoop filing page_num headers (idx + 1) rest

/-- Embedding of SenatePDFProcessor._parse_transaction_table
(senate/ingest.py lines 661-686): an empty or one-row table yields no
trades; otherwise the first row gives the headers and the remaining rows
are parsed from index 1, with per-row exceptions swallowed. -/
def parse_transaction_table (table : List (List String))
    (filing : SenateFiling) (page_num : Nat) : List SenateTrade :=
  if table.length < 2 then []
  else
    match table with
    | [] => []
    | hdr :: rows => tableRowsLoop filing page_num (buildTableHeaders hdr) 1 rows

end Senate

-- ==================== app.py : trigger_ingestion ====================

namespace App

/-- Response of the ingestion endpoint: HTTP status plus the JSON fields
the handler can emit. -/
structure IngestResponse where
  status : Nat
  error : Option String
  trades_found : Option Nat
  inserted : Option Nat
deriving DecidableEq, Repr

/-- Embedding of the trigger_ingestion handler (app.py lines 36-81).  The
surrounding collaborators enter as parameters: param_dates is the
combined outcome of the two _parse_date calls on the since and until
parameters (an error produces the 400 response), supabase_configured
reflects _init_supabase_client, run_ingestion is the outcome of the
fetch-and-ingest block guarded by the first try (an exception produces a
500 with only an error message), and upsert_trades the outcome of
_upsert_trades (an exception produces a 500 carrying trades_found).  The
success response reports trades_found and inserted; when the trade list
is empty the upsert is skipped and inserted stays 0. -/
def trigger_ingestion (param_dates : Except String (Option PyDate × Option PyDate))
    (supabase_configured : Bool)
    (run_ingestion : Except String (List House.Trade))
    (upsert_trades : List House.Trade → Except String Nat) : IngestResponse :=
  match param_dates with
  | .error msg => ⟨400, some msg, none, none⟩
  | .ok _ =>
    if !supabase_configured then
      ⟨500, some "Supabase environment variables are not configured", none, none⟩
    else
      match run_ingestion with
      | .error msg => ⟨500, some msg, none, none⟩
      | .ok trades =>
        if trades.isEmpty then ⟨200, none, some trades.length, some 0⟩
        else
          match upsert_trades trades with
          | .error msg => ⟨500, some msg, some trades.length, none⟩
          | .ok inserted => ⟨200, none, some trades.length, some inserted⟩

end App

-- ==================== helper lemmas ====================

/-- Whenever parse_amount_range returns two present bounds, the low bound
is at most the high bound: the range branch swaps a reversed pair, the
under branch returns (0, hi), the single branch returns an equal pair,
and the over branch never returns a present high bound. -/
lemma parse_amount_range_le (s : String) (lo hi : Nat)
    (h : parse_amount_range (some s) = (some lo, some hi)) : lo ≤ hi := by
  simp only [parse_amount_range] at h
  split at h
  · simp at h
  · split at h
    · simp at h
    · split at h
      · -- range branch
        split at h
        · split at h <;>
            · simp only [Prod.mk.injEq, Option.some.injEq] at h
              omega
        · simp_all
      · split at h
        · -- under branch
          split at h
          · simp at h
          · simp only [Prod.mk.injEq, Option.some.injEq] at h
            omega
        · split at h
          · -- over branch
            simp at h
          · split at h
            · -- single branch
              simp only [Prod.mk.injEq] at h
              obtain ⟨h1, h2⟩ := h
              rw [h1] at h2
              simp only [Option.some.injEq] at h2
              omega
            · simp at h

/-- The amount gate holds exactly when both bounds are present in the
right order. -/
lemma is_amount_range_iff (s : String) :
    House.is_amount_range s = true ↔
      ∃ lo hi, parse_amount_range (some s) = (some lo, some hi) ∧ lo ≤ hi := by
  unfold House.is_amount_range
  constructor
  · intro h
    split at h
    next lo hi heq =>
      exact ⟨lo, hi, heq, by simpa using h⟩
    next => simp at h
  · rintro ⟨lo, hi, heq, hle⟩
    rw [heq]
    simpa using hle

/-- Under a true amount gate, parse_amount_bucket returns the parsed
bounds themselves, in order. -/
lemma parse_amount_bucket_le (s : String) (h : House.is_amount_range s = true) :
    (House.parse_amount_bucket s).1 ≤ (House.parse_amount_bucket s).2.1 := by
  obtain ⟨lo, hi, heq, hle⟩ := (is_amount_range_iff s).mp h
  unfold House.parse_amount_bucket
  rw [heq]
  simpa using hle

/-- Inversion of the House row parser: every produced trade passed the
amount gate, carries the bounds computed by parse_amount_bucket from its
own amount text, and carries the uid built by row_uid from the source
tag, filing id, line number, ticker-or-company, ISO date, amount text and
action. -/
lemma parse_trade_row_inv (row : RawRow) (fid actor : String) (ln : Nat)
    (t : House.Trade) (h : House.parse_trade_row row fid actor ln = some t) :
    House.is_amount_range t.amount_range = true ∧
    t.amount_lo = (House.parse_amount_bucket t.amount_range).1 ∧
    t.amount_hi = (House.parse_amount_bucket t.amount_range).2.1 ∧
    t.filing_id = fid ∧ t.actor = actor ∧
    t.event_uid = House.row_uid "house_ptr" fid ln (pyOr t.ticker t.company)
      t.date.isoformat t.amount_range t.action := by
  simp only [House.parse_trade_row] at h
  split at h
  · simp at h
  · split at h
    · simp at h
    · split at h
      · simp at h
      · split at h
        · simp at h
        · split at h
          · simp at h
          · rename_i hexcl hdate haction hamount hasset
            obtain rfl := Option.some.inj h
            refine ⟨by simpa using hamount, rfl, rfl, rfl, rfl, rfl⟩

-- ==================== sample data ====================

/-- The basic-stock-buy scenario row of the spec. -/
def sampleRow : RawRow :=
  [("transaction date", "01/15/2024"), ("transaction type", "P"),
   ("asset", "Apple Inc. (AAPL)"), ("amount", "$15,001 - $50,000")]

/-- The trade the House parser produces from sampleRow under filing id
F1, actor A and line 0. -/
def sampleTradeParsed : House.Trade :=
  { event_uid := House.row_uid "house_ptr" "F1" 0 "AAPL" "2024-01-15"
      "$15,001 - $50,000" "Buy"
    filing_id := "F1"
    actor := "A"
    date := ⟨2024, 1, 15⟩
    action := "Buy"
    owner := ""
    ticker := "AAPL"
    company := "Apple Inc."
    asset_type := .STOCK
    amount_range := "$15,001 - $50,000"
    amount_lo := 15001
    amount_hi := 50000
    amount_bucket := 2
    cap_gains_over_200 := false
    description := ""
    raw_data := sampleRow }

-- ==================== claims ====================

/-- C1: for the row with transaction date 01/15/2024, transaction type P,
asset Apple Inc. (AAPL) and amount between 15,001 and 50,000 dollars,
House row normalization returns a Trade, whatever the filing id, actor
and line number, and that trade has action Buy, ticker AAPL, amount
bounds 15001 and 50000, and asset type STOCK. -/
theorem c1_basic_stock_buy (fid actor : String) (ln : Nat) :
    (House.parse_trade_row sampleRow fid actor ln).isSome = true ∧
    (House.parse_trade_row sampleRow fid actor ln).map
        (fun t => (t.action, t.ticker, t.amount_lo, t.amount_hi, t.asset_type))
      = some ("Buy", "AAPL", 15001, 50000, AssetType.STOCK) :=
  ⟨rfl, rfl⟩

/-- C2: identity generation is deterministic.  Normalizing the same row
twice yields the same result, the event uid of every produced trade is
exactly the row_uid of the source tag, filing id, line number,
ticker-or-company, ISO date, raw amount text and action, the canonical id
of the event mapper is exactly the deterministic uuid of the per-source
namespace tag and the event uid, and therefore two trades with the same
event uid map to the same canonical id, whatever their other fields. -/
theorem c2_deterministic_identity :
    (∀ row fid actor ln,
        House.parse_trade_row row fid actor ln
          = House.parse_trade_row row fid actor ln) ∧
    (∀ row fid actor ln t, House.parse_trade_row row fid actor ln = some t →
        t.event_uid = House.row_uid "house_ptr" fid ln (pyOr t.ticker t.company)
          t.date.isoformat t.amount_range t.action) ∧
    (∀ t p, (Normalization.transaction_event_from_house_trade t p).id
        = Normalization.deterministic_uuid "house" t.event_uid) ∧
    (∀ t1 t2 p1 p2, t1.event_uid = t2.event_uid →
        (Normalization.transaction_event_from_house_trade t1 p1).id
          = (Normalization.transaction_event_from_house_trade t2 p2).id) := by
  refine ⟨fun _ _ _ _ => rfl, ?_, fun _ _ => rfl, ?_⟩
  · intro row fid actor ln t h
    exact (parse_trade_row_inv row fid actor ln t h).2.2.2.2.2
  · intro t1 t2 p1 p2 h
    simp only [Normalization.transaction_event_from_house_trade]
    rw [h]

/-- Witness for C2 at the sample row: the hypotheses hold at a concrete
trade and the concluded identities evaluate there. -/
theorem c2_deterministic_identity_witness :
    House.parse_trade_row sampleRow "F1" "A" 0 = some sampleTradeParsed ∧
    sampleTradeParsed.event_uid
      = House.row_uid "house_ptr" "F1" 0
          (pyOr sampleTradeParsed.ticker sampleTradeParsed.company)
          sampleTradeParsed.date.isoformat sampleTradeParsed.amount_range
          sampleTradeParsed.action ∧
    (Normalization.transaction_event_from_house_trade sampleTradeParsed none).id
      = (Normalization.transaction_event_from_house_trade sampleTradeParsed
          (some "p1")).id :=
  ⟨rfl,
   c2_deterministic_identity.2.1 sampleRow "F1" "A" 0 sampleTradeParsed rfl,
   c2_deterministic_identity.2.2.2 sampleTradeParsed sampleTradeParsed none
     (some "p1") rfl⟩

/-- The amount lookup of the Senate row parser can only return normally
with the default triple: a present, non-empty amount reaches the broken
replace of line 866 and raises (see senate_parse_amount_range). -/
lemma senate_amount_lookup_ok (d : RawRow) :
    ∀ (keys : List String) (r : String × Nat × Nat),
      Senate.amountLookupLoop d keys = Except.ok r → r = ("", 0, 0) := by
  intro keys
  induction keys with
  | nil =>
    intro r h
    simp only [Senate.amountLookupLoop, Except.ok.injEq] at h
    exact h.symm
  | cons k ks ih =>
    intro r h
    simp only [Senate.amountLookupLoop] at h
    split at h
    · rename_i v heq
      split at h
      · rename_i hv
        split at h
        · rename_i lh heq2
          simp only [Senate.senate_parse_amount_range, if_neg hv] at heq2
          exact absurd heq2 (by simp)
        · simp at h
      · exact ih r h
    · exact ih r h

/-- Every trade the Senate row parser actually produces carries the
default amount bounds 0 and 0: rows whose amount cell is non-empty make
the parser raise instead, and rows without a usable amount cell fall
through to the defaults. -/
lemma senate_trade_bounds (row headers : List String)
    (filing : Senate.SenateFiling) (pg idx : Nat) (t : Senate.SenateTrade)
    (h : Senate.parse_trade_row row headers filing pg idx = Except.ok (some t)) :
    t.amount_lo = 0 ∧ t.amount_hi = 0 := by
  simp only [Senate.parse_trade_row] at h
  split at h
  · simp at h
  · split at h
    · simp at h
    · split at h
      · simp at h
      · split at h
        · simp at h
        · split at h
          · simp at h
          · rename_i amount hamt
            obtain rfl := Option.some.inj (Except.ok.inj h)
            obtain rfl := senate_amount_lookup_ok _ _ amount hamt
            exact ⟨rfl, rfl⟩

/-- Membership in the Senate table loop comes from a row whose parse
returned a trade. -/
lemma mem_tableRowsLoop (filing : Senate.SenateFiling) (pg : Nat)
    (headers : List String) :
    ∀ (rows : List (List String)) (idx : Nat) (t : Senate.SenateTrade),
      t ∈ Senate.tableRowsLoop filing pg headers idx rows →
      ∃ row idx2, Senate.parse_trade_row row headers filing pg idx2
        = Except.ok (some t) := by
  intro rows
  induction rows with
  | nil => intro idx t ht; simp [Senate.tableRowsLoop] at ht
  | cons row rest ih =>
    intro idx t ht
    simp only [Senate.tableRowsLoop] at ht
    split at ht
    · rename_i t2 heq
      rcases List.mem_cons.mp ht with rfl | h2
      · exact ⟨row, idx, heq⟩
      · exact ih (idx + 1) t h2
    · exact ih (idx + 1) t ht
    · exact ih (idx + 1) t ht

/-- C3: every trade produced by row normalization satisfies amount_lo at
most amount_hi, in both chambers.  For the House parser this follows from
the amount gate and the swap inside parse_amount_range.  For the Senate
parser it holds because line 866 of its amount parser is broken source
(an unterminated string literal; the module cannot even be imported, and
under the closest executable reading every call on a non-empty amount
raises TypeError, which the per-row try/except of the table loop turns
into a dropped row): a Senate trade can only ever carry the default
bounds 0 and 0, so no produced trade violates the invariant, at the row
level and at the table level alike. -/
theorem c3_amount_bounds :
    (∀ (row : RawRow) (fid actor : String) (ln : Nat) (t : House.Trade),
        House.parse_trade_row row fid actor ln = some t →
        t.amount_lo ≤ t.amount_hi) ∧
    (∀ (row headers : List String) (filing : Senate.SenateFiling)
        (pg idx : Nat) (t : Senate.SenateTrade),
        Senate.parse_trade_row row headers filing pg idx = Except.ok (some t) →
        t.amount_lo ≤ t.amount_hi) ∧
    (∀ (table : List (List String)) (filing : Senate.SenateFiling) (pg : Nat)
        (t : Senate.SenateTrade),
        t ∈ Senate.parse_transaction_table table filing pg →
        t.amount_lo ≤ t.amount_hi) := by
  refine ⟨?_, ?_, ?_⟩
  · intro row fid actor ln t h
    obtain ⟨hg, hlo, hhi, -, -, -⟩ := parse_trade_row_inv row fid actor ln t h
    rw [hlo, hhi]
    exact parse_amount_bucket_le _ hg
  · intro row headers filing pg idx t h
    obtain ⟨hlo, hhi⟩ := senate_trade_bounds row headers filing pg idx t h
    rw [hlo, hhi]
  · intro table filing pg t ht
    rcases table with _ | ⟨hdr, rows⟩
    · simp [Senate.parse_transaction_table] at ht
    · simp only [Senate.parse_transaction_table] at ht
      split at ht
      · simp at ht
      · obtain ⟨row, idx2, heq⟩ :=
          mem_tableRowsLoop filing pg (Senate.buildTableHeaders hdr) rows 1 t ht
        obtain ⟨hlo, hhi⟩ :=
          senate_trade_bounds row (Senate.buildTableHeaders hdr) filing pg idx2 t heq
        rw [hlo, hhi]

/-- The trade the Senate row parser produces from a row without an
amount column. -/
def senateSampleTrade : Senate.SenateTrade :=
  { event_uid := Senate.generate_trade_uid "R1" 1 1 "AAPL" "2024-01-15" "Purchase"
    report_id := "R1"
    senator := "Jane Roe"
    state := "TX"
    date := ⟨2024, 1, 15⟩
    action := "Purchase"
    owner := ""
    asset := "Apple Inc. (AAPL)"
    ticker := "AAPL"
    asset_type := .STOCK
    amount_range := ""
    amount_lo := 0
    amount_hi := 0
    notification_date := none
    comment := ""
    raw_data := [("transaction date", "01/15/2024"), ("type", "Purchase"),
                 ("asset", "Apple Inc. (AAPL)")] }

/-- Witness for C3 on both chambers: the House sample row yields a trade
with bounds in order, and a concrete Senate row (one without an amount
column, the only kind that can produce a trade) yields a trade with the
default bounds, again in order. -/
theorem c3_amount_bounds_witness :
    House.parse_trade_row sampleRow "F1" "A" 0 = some sampleTradeParsed ∧
    sampleTradeParsed.amount_lo ≤ sampleTradeParsed.amount_hi ∧
    Senate.parse_trade_row ["01/15/2024", "Purchase", "Apple Inc. (AAPL)"]
        ["transaction date", "type", "asset"]
        ⟨"Jane Roe", "TX", "ptr", ⟨2024, 1, 1⟩, "R1", "u"⟩ 1 1
      = Except.ok (some senateSampleTrade) ∧
    senateSampleTrade.amount_lo ≤ senateSampleTrade.amount_hi :=
  ⟨rfl, c3_amount_bounds.1 sampleRow "F1" "A" 0 sampleTradeParsed rfl, rfl,
   c3_amount_bounds.2.1 ["01/15/2024", "Purchase", "Apple Inc. (AAPL)"]
     ["transaction date", "type", "asset"]
     ⟨"Jane Roe", "TX", "ptr", ⟨2024, 1, 1⟩, "R1", "u"⟩ 1 1 senateSampleTrade rfl⟩

/-- C4 (amended): the amount gate accepts a row whose amount cell parses
to two present bounds, which covers the explicit low-high range (swapped
so lo is at most hi when reversed), the under/less-than phrase (lo 0) and
the single dollar figure (lo equal to hi); a row whose amount parses with
a missing bound is dropped, which covers both the no-match case and the
over-X phrase, whose unbounded high side the gate rejects. -/
theorem c4_amount_gate :
    (∀ s lo hi, parse_amount_range (some s) = (some lo, some hi) →
        lo ≤ hi ∧ House.is_amount_range s = true) ∧
    (∀ s lo hi, parse_amount_range (some s) = (lo, hi) →
        lo = none ∨ hi = none → House.is_amount_range s = false) ∧
    parse_amount_range (some "$15,001 - $50,000") = (some 15001, some 50000) ∧
    parse_amount_range (some "$50,000 - $1,001") = (some 1001, some 50000) ∧
    parse_amount_range (some "under $5,000") = (some 0, some 5000) ∧
    parse_amount_range (some "$500") = (some 500, some 500) ∧
    parse_amount_range (some "over $1,000,000") = (some 1000000, none) ∧
    House.is_amount_range "not an amount" = false := by
  refine ⟨?_, ?_, rfl, rfl, rfl, rfl, rfl, rfl⟩
  · intro s lo hi h
    exact ⟨parse_amount_range_le s lo hi h,
      (is_amount_range_iff s).mpr ⟨lo, hi, h, parse_amount_range_le s lo hi h⟩⟩
  · intro s lo hi h hn
    unfold House.is_amount_range
    rw [h]
    rcases hn with rfl | rfl
    · rcases hi with _ | n <;> rfl
    · rcases lo with _ | n <;> rfl

/-- Witness for C4 at the range of the sample row. -/
theorem c4_amount_gate_witness :
    parse_amount_range (some "$15,001 - $50,000") = (some 15001, some 50000) ∧
    (15001 ≤ 50000 ∧ House.is_amount_range "$15,001 - $50,000" = true) :=
  ⟨rfl, c4_amount_gate.1 "$15,001 - $50,000" 15001 50000 rfl⟩

/-- Counterexample for C4 as stated: an over-X amount matches the over
shape of the parser, yielding lo with an unbounded high, yet the gate
rejects it, so the row is dropped rather than accepted. -/
theorem c4_counterexample :
    parse_amount_range (some "over $1,000,000") = (some 1000000, none) ∧
    House.is_amount_range "over $1,000,000" = false :=
  ⟨rfl, rfl⟩

/-- First-match behaviour of the bucket loop on any table: when some
entry contains the pair, the table splits into a prefix of entries that
all fail, the first containing entry, and the rest, and the loop returns
the score of that first containing entry. -/
lemma bucketLoop_first (lo hi : Nat) :
    ∀ l : List (Nat × Nat × Nat), (∃ b ∈ l, b.1 ≤ lo ∧ hi ≤ b.2.1) →
      ∃ l1 b l2, l = l1 ++ b :: l2 ∧
        (∀ b2 ∈ l1, ¬(b2.1 ≤ lo ∧ hi ≤ b2.2.1)) ∧
        (b.1 ≤ lo ∧ hi ≤ b.2.1) ∧ House.bucketLoop lo hi l = b.2.2 := by
  intro l
  induction l with
  | nil => rintro ⟨b, hb, -⟩; simp at hb
  | cons a l ih =>
    intro hc
    by_cases ha : a.1 ≤ lo ∧ hi ≤ a.2.1
    · exact ⟨[], a, l, rfl, by simp, ha, by simp [House.bucketLoop, ha]⟩
    · obtain ⟨b, hb, hP⟩ := hc
      rcases List.mem_cons.mp hb with rfl | hb2
      · exact absurd hP ha
      · obtain ⟨l1, b1, l2, heq, hl1, hP1, hres⟩ := ih ⟨b, hb2, hP⟩
        refine ⟨a :: l1, b1, l2, by rw [List.cons_append, heq], ?_, hP1, ?_⟩
        · intro b2 hb2m
          rcases List.mem_cons.mp hb2m with rfl | h2
          · exact ha
          · exact hl1 b2 h2
        · simpa [House.bucketLoop, ha] using hres

/-- C5 (amended): the bucket component of parse_amount_bucket is exactly
the loop over the fixed ascending table applied to the returned bounds,
and every pair lying within some bucket of that table is assigned the
index of the first containing bucket (the table splits into a failing
prefix followed by that bucket); the assigned index is not monotone in
(lo, hi) in general, because a pair contained in no bucket falls back to
index 0 (see the counterexample). -/
theorem c5_bucket_first_match :
    (∀ s lo hi b, House.parse_amount_bucket s = (lo, hi, b) →
        b = House.bucketLoop lo hi House.AMOUNT_BUCKETS) ∧
    (∀ lo hi, (∃ b ∈ House.AMOUNT_BUCKETS, b.1 ≤ lo ∧ hi ≤ b.2.1) →
        ∃ l1 b l2, House.AMOUNT_BUCKETS = l1 ++ b :: l2 ∧
          (∀ b2 ∈ l1, ¬(b2.1 ≤ lo ∧ hi ≤ b2.2.1)) ∧
          (b.1 ≤ lo ∧ hi ≤ b.2.1) ∧
          House.bucketLoop lo hi House.AMOUNT_BUCKETS = b.2.2) := by
  constructor
  · intro s lo hi b h
    simp only [House.parse_amount_bucket] at h
    split at h
    · obtain ⟨rfl, rfl, rfl⟩ := Prod.mk.injEq .. ▸ h
      simp_all
      decide
    · obtain ⟨rfl, rfl, rfl⟩ := Prod.mk.injEq .. ▸ h
      simp_all
  · exact fun lo hi hc => bucketLoop_first lo hi House.AMOUNT_BUCKETS hc

/-- Witness for C5: the string level agrees with the loop on the sample
range, and the pair (15001, 50000) lies within the third bucket of the
table, its failing prefix is the first two buckets, and the loop assigns
index 2 to it. -/
theorem c5_bucket_first_match_witness :
    (2 : Nat) = House.bucketLoop 15001 50000 House.AMOUNT_BUCKETS ∧
    ∃ l1 b l2, House.AMOUNT_BUCKETS = l1 ++ b :: l2 ∧
      (∀ b2 ∈ l1, ¬(b2.1 ≤ 15001 ∧ 50000 ≤ b2.2.1)) ∧
      (b.1 ≤ 15001 ∧ 50000 ≤ b.2.1) ∧
      House.bucketLoop 15001 50000 House.AMOUNT_BUCKETS = b.2.2 :=
  ⟨c5_bucket_first_match.1 "$15,001 - $50,000" 15001 50000 2 rfl,
   c5_bucket_first_match.2 15001 50000 ⟨(15000, 50000, 2), by decide, by decide⟩⟩

/-- Counterexample for C5 as stated: growing the pair (1000, 15000),
assigned index 1, to (1000, 20000) drops the assigned index to 0, because
the larger pair fits in no bucket; the string-level parser shows the same
fall, so the assigned bucket index is not monotone. -/
theorem c5_counterexample :
    House.bucketLoop 1000 15000 House.AMOUNT_BUCKETS = 1 ∧
    House.bucketLoop 1000 20000 House.AMOUNT_BUCKETS = 0 ∧
    1000 ≤ 1000 ∧ 15000 ≤ 20000 ∧ ¬(1 : Nat) ≤ 0 ∧
    House.parse_amount_bucket "$1,000 - $15,000" = (1000, 15000, 1) ∧
    House.parse_amount_bucket "$1,000 - $20,000" = (1000, 20000, 0) := by
  refine ⟨by decide, by decide, by decide, by decide, by decide, rfl, rfl⟩

/-- C6 (amended): the House classifier tests OPTION, CRYPTO, MUTUAL_FUND,
BOND, ETF, STOCK, OTHER in that order with the first match winning: an
option keyword wins even when a crypto ticker also applies, a crypto
ticker otherwise yields CRYPTO (so the asset Bitcoin (BTC) is CRYPTO), the
ETF branch needs a pattern keyword or a 4-character ticker ending in F,
and a remaining input yields STOCK exactly when a ticker is present.  The
Senate classifier diverges from the claimed order: it tests BOND before
MUTUAL_FUND and assigns ETF to any ticker ending in F. -/
theorem c6_classification_order :
    (∀ a t, House.OPTION_KEYWORDS.any
          (fun kw => isSubstr kw.data (lowerStr a.data)) = true →
        House.classify_asset_type a t = AssetType.OPTION) ∧
    (∀ a t, House.OPTION_KEYWORDS.any
          (fun kw => isSubstr kw.data (lowerStr a.data)) = false →
        House.optionSearch a.data = none →
        House.CRYPTO_SYMBOLS.any (fun s => s.data = upperStr t.data) = true →
        House.classify_asset_type a t = AssetType.CRYPTO) ∧
    House.classify_asset_type "Bitcoin (BTC)" "BTC" = AssetType.CRYPTO ∧
    (∀ a t, House.OPTION_KEYWORDS.any
          (fun kw => isSubstr kw.data (lowerStr a.data)) = false →
        House.optionSearch a.data = none →
        House.CRYPTO_SYMBOLS.any (fun s => s.data = upperStr t.data) = false →
        ["crypto", "bitcoin", "ethereum", "digital asset"].any
          (fun kw => isSubstr kw.data (lowerStr a.data)) = false →
        ["mutual fund", "index fund"].any
          (fun kw => isSubstr kw.data (lowerStr a.data)) = false →
        ["bond", "treasury", "note", "bill"].any
          (fun kw => isSubstr kw.data (lowerStr a.data)) = false →
        (House.ETF_PATTERNS.any
            (fun p => isSubstr (lowerStr p.data) (lowerStr a.data)) = true ∨
          ((upperStr t.data).getLast? = some 'F' ∧ (upperStr t.data).length = 4)) →
        House.classify_asset_type a t = AssetType.ETF) ∧
    (∀ a t, House.OPTION_KEYWORDS.any
          (fun kw => isSubstr kw.data (lowerStr a.data)) = false →
        House.optionSearch a.data = none →
        House.CRYPTO_SYMBOLS.any (fun s => s.data = upperStr t.data) = false →
        ["crypto", "bitcoin", "ethereum", "digital asset"].any
          (fun kw => isSubstr kw.data (lowerStr a.data)) = false →
        ["mutual fund", "index fund"].any
          (fun kw => isSubstr kw.data (lowerStr a.data)) = false →
        ["bond", "treasury", "note", "bill"].any
          (fun kw => isSubstr kw.data (lowerStr a.data)) = false →
        House.ETF_PATTERNS.any
          (fun p => isSubstr (lowerStr p.data) (lowerStr a.data)) = false →
        ¬((upperStr t.data).getLast? = some 'F' ∧ (upperStr t.data).length = 4) →
        House.classify_asset_type a t
          = (if t ≠ "" then AssetType.STOCK else AssetType.OTHER)) ∧
    Senate.senate_classify_asset_type "mutual fund note" "" = AssetType.BOND ∧
    Senate.senate_classify_asset_type "Acme" "WF" = AssetType.ETF := by
  refine ⟨?_, ?_, by decide, ?_, ?_, by decide, by decide⟩
  · intro a t h1
    simp [House.classify_asset_type, h1]
  · intro a t h1 h2 h3
    simp [House.classify_asset_type, h1, h2, h3]
  · intro a t h1 h2 h3 h4 h5 h6 h7
    rcases h7 with h7 | h7
    · simp [House.classify_asset_type, h1, h2, h3, h4, h5, h6, h7]
    · simp [House.classify_asset_type, h1, h2, h3, h4, h5, h6, h7.1, h7.2]
  · intro a t h1 h2 h3 h4 h5 h6 h7 h8
    simp only [House.classify_asset_type, h1, h2, h3, h4, h5, h6, h7,
      Option.isSome_none, Bool.false_eq_true, if_false]
    rw [if_neg h8]

/-- Witness for C6: the asset text mentioning a call option with the
crypto ticker BTC classifies as OPTION, and the plain crypto and stock
scenarios evaluate as concluded. -/
theorem c6_classification_order_witness :
    House.classify_asset_type "call option on Bitcoin" "BTC" = AssetType.OPTION ∧
    House.classify_asset_type "Apple Inc. (AAPL)" "AAPL"
      = (if "AAPL" ≠ "" then AssetType.STOCK else AssetType.OTHER) :=
  ⟨c6_classification_order.1 "call option on Bitcoin" "BTC" (by decide),
   c6_classification_order.2.2.2.2.1 "Apple Inc. (AAPL)" "AAPL" (by decide)
     (by rfl) (by decide) (by decide) (by decide) (by decide) (by decide)
     (by decide)⟩

/-- Counterexample for C6 as stated: on the asset text mutual fund note,
the Senate classifier returns BOND while the claimed order, which the
House classifier follows, demands MUTUAL_FUND; the two classifiers
disagree on the same input. -/
theorem c6_counterexample :
    Senate.senate_classify_asset_type "mutual fund note" "" = AssetType.BOND ∧
    House.classify_asset_type "mutual fund note" "" = AssetType.MUTUAL_FUND ∧
    AssetType.BOND ≠ AssetType.MUTUAL_FUND := by
  refine ⟨by decide, by decide, by decide⟩

/-- The lower-cased normalized text canonicalize_transaction_type
matches its keywords against. -/
def canonText (v : Option String) : List Char :=
  lowerStr (normalize_text v).data

/-- C7: canonicalize_transaction_type always returns one of buy, sell or
other; it returns buy exactly when some buy-family keyword is a substring
of the lower-cased normalized text, it returns sell when no buy-family
keyword matches but a sell-family keyword does, and other when neither
family matches. -/
theorem c7_canonicalize_transaction_type (v : Option String) :
    (Normalization.canonicalize_transaction_type v = "buy"
      ∨ Normalization.canonicalize_transaction_type v = "sell"
      ∨ Normalization.canonicalize_transaction_type v = "other") ∧
    (Normalization.canonicalize_transaction_type v = "buy" ↔
      Normalization.BUY_KEYWORDS.any (fun k => isSubstr k.data (canonText v)) = true) ∧
    (Normalization.BUY_KEYWORDS.any (fun k => isSubstr k.data (canonText v)) = false →
      Normalization.SELL_KEYWORDS.any (fun k => isSubstr k.data (canonText v)) = true →
      Normalization.canonicalize_transaction_type v = "sell") ∧
    (Normalization.BUY_KEYWORDS.any (fun k => isSubstr k.data (canonText v)) = false →
      Normalization.SELL_KEYWORDS.any (fun k => isSubstr k.data (canonText v)) = false →
      Normalization.canonicalize_transaction_type v = "other") := by
  match v with
  | none =>
    refine ⟨Or.inr (Or.inr rfl), ?_, ?_, fun _ _ => rfl⟩
    · constructor
      · intro h
        simp [Normalization.canonicalize_transaction_type] at h
      · intro h
        have hb : Normalization.BUY_KEYWORDS.any
            (fun k => isSubstr k.data (canonText none)) = false := by decide
        rw [hb] at h
        cases h
    · intro _ h
      have hs2 : Normalization.SELL_KEYWORDS.any
          (fun k => isSubstr k.data (canonText none)) = false := by decide
      rw [hs2] at h
      cases h
  | some s =>
    by_cases hs : s = ""
    · subst hs
      refine ⟨Or.inr (Or.inr rfl), ?_, ?_, fun _ _ => rfl⟩
      · constructor
        · intro h
          simp [Normalization.canonicalize_transaction_type] at h
        · intro h
          have hb : Normalization.BUY_KEYWORDS.any
              (fun k => isSubstr k.data (canonText (some ""))) = false := by decide
          rw [hb] at h
          cases h
      · intro _ h
        have hs2 : Normalization.SELL_KEYWORDS.any
            (fun k => isSubstr k.data (canonText (some ""))) = false := by decide
        rw [hs2] at h
        cases h
    · have htext : canonText (some s) = lowerStr (normalizeTextL s.data) := rfl
      by_cases hempty : (lowerStr (normalizeTextL s.data)).isEmpty = true
      · have htext0 : lowerStr (normalizeTextL s.data) = [] :=
          List.isEmpty_iff.mp hempty
        have hbuy : Normalization.BUY_KEYWORDS.any
            (fun k => isSubstr k.data (canonText (some s))) = false := by
          rw [htext, htext0]; decide
        have hsellF : Normalization.SELL_KEYWORDS.any
            (fun k => isSubstr k.data (canonText (some s))) = false := by
          rw [htext, htext0]; decide
        have hother : Normalization.canonicalize_transaction_type (some s) = "other" := by
          simp only [Normalization.canonicalize_transaction_type, if_neg hs,
            hempty, if_true]
        refine ⟨Or.inr (Or.inr hother), ?_, ?_, fun _ _ => hother⟩
        · rw [hother, hbuy]
          constructor
          · intro h; simp at h
          · intro h; cases h
        · intro _ h
          rw [hsellF] at h
          cases h
      · have hred : Normalization.canonicalize_transaction_type (some s)
            = (if (Normalization.BUY_KEYWORDS.any
                    (fun k => isSubstr k.data (lowerStr (normalizeTextL s.data)))) = true
               then "buy"
               else if (Normalization.SELL_KEYWORDS.any
                    (fun k => isSubstr k.data (lowerStr (normalizeTextL s.data)))) = true
               then "sell"
               else "other") := by
          simp only [Normalization.canonicalize_transaction_type, if_neg hs,
            if_neg hempty]
        by_cases hbuy : (Normalization.BUY_KEYWORDS.any
            (fun k => isSubstr k.data (lowerStr (normalizeTextL s.data)))) = true
        · rw [hred, if_pos hbuy]
          refine ⟨Or.inl rfl, ?_, ?_, ?_⟩
          · rw [htext]
            exact ⟨fun _ => hbuy, fun _ => rfl⟩
          · intro h1 _
            rw [htext, hbuy] at h1
            cases h1
          · intro h1 _
            rw [htext, hbuy] at h1
            cases h1
        · have hbuyF : (Normalization.BUY_KEYWORDS.any
              (fun k => isSubstr k.data (lowerStr (normalizeTextL s.data)))) = false := by
            simpa using hbuy
          rw [hred, if_neg hbuy]
          by_cases hsell : (Normalization.SELL_KEYWORDS.any
              (fun k => isSubstr k.data (lowerStr (normalizeTextL s.data)))) = true
          · rw [if_pos hsell]
            refine ⟨Or.inr (Or.inl rfl), ?_, fun _ _ => rfl, ?_⟩
            · rw [htext, hbuyF]
              constructor
              · intro h; simp at h
              · intro h; cases h
            · intro _ h2
              rw [htext, hsell] at h2
              cases h2
          · have hsellF : (Normalization.SELL_KEYWORDS.any
                (fun k => isSubstr k.data (lowerStr (normalizeTextL s.data)))) = false := by
              simpa using hsell
            rw [if_neg hsell]
            refine ⟨Or.inr (Or.inr rfl), ?_, ?_, fun _ _ => rfl⟩
            · rw [htext, hbuyF]
              constructor
              · intro h; simp at h
              · intro h; cases h
            · intro _ h2
              rw [htext, hsellF] at h2
              cases h2

/-- Witness for C7 at the Senate vocabulary item Sale (Partial): no buy
keyword matches, the sell keyword sale does, and the result is sell. -/
theorem c7_canonicalize_transaction_type_witness :
    Normalization.BUY_KEYWORDS.any
      (fun k => isSubstr k.data (canonText (some "Sale (Partial)"))) = false ∧
    Normalization.SELL_KEYWORDS.any
      (fun k => isSubstr k.data (canonText (some "Sale (Partial)"))) = true ∧
    Normalization.canonicalize_transaction_type (some "Sale (Partial)") = "sell" :=
  ⟨by decide, by decide,
   (c7_canonicalize_transaction_type (some "Sale (Partial)")).2.2.1
     (by decide) (by decide)⟩

/-- C8 (amended): the two-digit-year examples of the spec hold, through
the strptime format with the %y directive, whose pivot maps 00 to 68 to
the 2000s and 69 to 99 to the 1900s; the below-50-to-2000s rule of the
claim governs only the regex fallback, reached when no strptime format
consumes the whole string.  So 3/4/95 parses to 1995-03-04 and 3/4/05 to
2005-03-04, but 3/4/55 parses to 2055-03-04, while the same date inside
the string on 3/4/55, which reaches the fallback, parses to
1955-03-04. -/
theorem c8_two_digit_years :
    parse_date_default (some "3/4/95") = some ⟨1995, 3, 4⟩ ∧
    parse_date_default (some "3/4/05") = some ⟨2005, 3, 4⟩ ∧
    parse_date_default (some "3/4/55") = some ⟨2055, 3, 4⟩ ∧
    parse_date_default (some "3/4/68") = some ⟨2068, 3, 4⟩ ∧
    parse_date_default (some "3/4/69") = some ⟨1969, 3, 4⟩ ∧
    parse_date_default (some "on 3/4/55") = some ⟨1955, 3, 4⟩ ∧
    parse_date_default (some "on 3/4/49") = some ⟨2049, 3, 4⟩ :=
  ⟨rfl, rfl, rfl, rfl, rfl, rfl, rfl⟩

/-- Counterexample for C8 as stated: the claimed rule maps a two-digit
year of at least 50 to the 1900s, which would parse 3/4/55 to 1955-03-04;
the parser instead returns 2055-03-04 for it. -/
theorem c8_counterexample :
    parse_date_default (some "3/4/55") = some ⟨2055, 3, 4⟩ ∧
    (some (PyDate.mk 2055 3 4) ≠ some (PyDate.mk 1955 3 4)) :=
  ⟨rfl, by decide⟩

/-- The batch fold equals the concatenation of the per-filing successful
results, in submission order. -/
lemma batch_fold_join (runSingle : House.Filing → Except String (List House.Trade)) :
    ∀ (l : List House.Filing) (acc : List House.Trade),
      l.foldl
        (fun acc f =>
          match runSingle f with
          | .ok ts => acc ++ ts
          | .error _ => acc) acc
        = acc ++ (l.map (fun f =>
            match runSingle f with
            | .ok ts => ts
            | .error _ => [])).flatten := by
  intro l
  induction l with
  | nil => intro acc; simp
  | cons a l ih =>
    intro acc
    rcases hr : runSingle a with e | ts <;>
      simp [List.foldl_cons, hr, ih, List.append_assoc]

/-- C9: batch processing isolates per-filing failures.  A filing whose
worker raises, or returns no trades, contributes nothing: the batch
result is exactly the concatenation of the results of the other filings,
and the batch itself is a total function (the per-future exception is
caught inside the loop).  A filing whose fetch fails on both the primary
and the alternate URL yields the empty trade list from
process_single_filing, covering the always-failing-fetch case. -/
theorem c9_partial_failure_isolation :
    (∀ (runSingle : House.Filing → Except String (List House.Trade))
        (l1 l2 : List House.Filing) (b : House.Filing) (e : String),
        runSingle b = Except.error e ∨ runSingle b = Except.ok [] →
        House.process_filing_batch runSingle true (l1 ++ b :: l2)
          = House.process_filing_batch runSingle true l1
            ++ House.process_filing_batch runSingle true l2) ∧
    (∀ (β : Type) (download : String → String → Option β)
        (parseTrades : β → String → String → List House.Trade)
        (today : PyDate) (since : Option PyDate) (filing : House.Filing),
        download filing.pdf_url filing.doc_id = none →
        download filing.alternate_pdf_url filing.doc_id = none →
        House.process_single_filing download parseTrades today since filing = []) := by
  constructor
  · intro rs l1 l2 b e hb
    simp only [House.process_filing_batch, Bool.not_true, Bool.false_eq_true,
      if_false]
    rw [batch_fold_join, batch_fold_join, batch_fold_join]
    simp only [List.map_append, List.map_cons, List.flatten_append, List.flatten_cons,
      List.nil_append]
    rcases hb with hb | hb <;> simp [hb]
  · intro β download parseTrades today since filing h1 h2
    simp [House.process_single_filing, h1, h2]

/-- A fixed trade used to instantiate the batch and endpoint claims. -/
def dummyTrade : House.Trade :=
  ⟨"uid", "F", "A", ⟨2024, 1, 15⟩, "Buy", "", "AAPL", "Apple", .STOCK,
   "$1 - $2", 1, 2, 0, false, "", []⟩

def wFilingA : House.Filing := ⟨"Ann", "Able", "P", "CA", 2025, ⟨2025, 1, 1⟩, "DOCA"⟩

def wFilingB : House.Filing := ⟨"Bob", "Baker", "P", "TX", 2025, ⟨2025, 1, 2⟩, "DOCB"⟩

def wFilingC : House.Filing := ⟨"Cam", "Cole", "P", "NY", 2025, ⟨2025, 1, 3⟩, "DOCC"⟩

/-- A worker outcome map where the second filing always raises. -/
def wRunSingle : House.Filing → Except String (List House.Trade) :=
  fun f => if f.doc_id = "DOCB" then Except.error "download failed"
           else Except.ok [dummyTrade]

/-- Witness for C9: in a batch of three filings whose middle worker
raises, the batch result is the concatenation of the first and third
results, and a filing whose two download attempts fail yields no
trades. -/
theorem c9_partial_failure_isolation_witness :
    (wRunSingle wFilingB = Except.error "download failed"
      ∨ wRunSingle wFilingB = Except.ok []) ∧
    House.process_filing_batch wRunSingle true ([wFilingA] ++ wFilingB :: [wFilingC])
      = House.process_filing_batch wRunSingle true [wFilingA]
        ++ House.process_filing_batch wRunSingle true [wFilingC] ∧
    House.process_single_filing (fun _ _ => (none : Option String))
      (fun _ _ _ => []) ⟨2025, 1, 1⟩ none wFilingA = [] :=
  ⟨Or.inl rfl,
   c9_partial_failure_isolation.1 wRunSingle [wFilingA] [wFilingC] wFilingB
     "download failed" (Or.inl rfl),
   c9_partial_failure_isolation.2 String (fun _ _ => none) (fun _ _ _ => [])
     ⟨2025, 1, 1⟩ none wFilingA rfl rfl⟩

/-- C10: the ingestion endpoint keeps the count of candidate trades in
its error response when persisting fails, reports both counts on success,
and a 200 response always carries trades_found and inserted with no
error field, so a zero-trades success is distinguishable from every
failure response, which has a non-200 status. -/
theorem c10_ingestion_reporting :
    (∀ (d : Option PyDate × Option PyDate)
        (ri : Except String (List House.Trade))
        (up : List House.Trade → Except String Nat)
        (trades : List House.Trade) (msg : String),
        ri = Except.ok trades → trades ≠ [] → up trades = Except.error msg →
        App.trigger_ingestion (Except.ok d) true ri up
          = ⟨500, some msg, some trades.length, none⟩) ∧
    (∀ (d : Option PyDate × Option PyDate)
        (ri : Except String (List House.Trade))
        (up : List House.Trade → Except String Nat)
        (trades : List House.Trade) (n : Nat),
        ri = Except.ok trades → trades ≠ [] → up trades = Except.ok n →
        App.trigger_ingestion (Except.ok d) true ri up
          = ⟨200, none, some trades.length, some n⟩) ∧
    (∀ (d : Option PyDate × Option PyDate)
        (up : List House.Trade → Except String Nat),
        App.trigger_ingestion (Except.ok d) true (Except.ok []) up
          = ⟨200, none, some 0, some 0⟩) ∧
    (∀ (pd : Except String (Option PyDate × Option PyDate)) (sup : Bool)
        (ri : Except String (List House.Trade))
        (up : List House.Trade → Except String Nat),
        (App.trigger_ingestion pd sup ri up).status = 200 →
        (App.trigger_ingestion pd sup ri up).error = none ∧
        (App.trigger_ingestion pd sup ri up).trades_found.isSome = true ∧
        (App.trigger_ingestion pd sup ri up).inserted.isSome = true) := by
  refine ⟨?_, ?_, ?_, ?_⟩
  · intro d ri up trades msg hri htr hup
    subst hri
    have hne : trades.isEmpty = false := by
      rcases trades with _ | ⟨t, ts⟩
      · exact absurd rfl htr
      · rfl
    simp [App.trigger_ingestion, hne, hup]
  · intro d ri up trades n hri htr hup
    subst hri
    have hne : trades.isEmpty = false := by
      rcases trades with _ | ⟨t, ts⟩
      · exact absurd rfl htr
      · rfl
    simp [App.trigger_ingestion, hne, hup]
  · intro d up
    simp [App.trigger_ingestion]
  · intro pd sup ri up h
    rcases pd with m | d
    · simp [App.trigger_ingestion] at h
    · cases sup
      · simp [App.trigger_ingestion] at h
      · rcases ri with m | trades
        · simp [App.trigger_ingestion] at h
        · rcases trades with _ | ⟨t, ts⟩
          · simp [App.trigger_ingestion]
          · rcases hup : up (t :: ts) with m | n
            · simp [App.trigger_ingestion, hup] at h
            · simp [App.trigger_ingestion, hup]

/-- Witness for C10: a batch of one candidate trade whose write fails is
answered with status 500, the error message and trades_found 1; the same
batch with a successful write is answered with status 200, trades_found 1
and inserted 1. -/
theorem c10_ingestion_reporting_witness :
    App.trigger_ingestion (Except.ok (none, none)) true (Except.ok [dummyTrade])
        (fun _ => Except.error "db write failed")
      = ⟨500, some "db write failed", some 1, none⟩ ∧
    App.trigger_ingestion (Except.ok (none, none)) true (Except.ok [dummyTrade])
        (fun _ => Except.ok 1)
      = ⟨200, none, some 1, some 1⟩ :=
  ⟨c10_ingestion_reporting.1 (none, none) (Except.ok [dummyTrade])
     (fun _ => Except.error "db write failed") [dummyTrade] "db write failed"
     rfl (by simp) rfl,
   c10_ingestion_reporting.2.1 (none, none) (Except.ok [dummyTrade])
     (fun _ => Except.ok 1) [dummyTrade] 1 rfl (by simp) rfl⟩

end GriftTracker
